import Mathlib

/-!
Verification of the kener-telegram-webhook-relay service (src/index.ts).

The TypeScript source is shallowly embedded: JS strings are Lean `String`s,
optional / missing payload fields are `Option`s, JS `x || d` on strings is
`orDefault`, exceptions are `Except`, and the two host capabilities the code
uses (the `Date`/`toLocaleString` renderer and the JS `Number` parser) are
explicit function parameters.  The network (`fetch`) is a function from the
outbound request to the observed response.
-/

namespace KenerRelay

/-- JS `x || d` for an optional string field: `undefined`, `null` and the
empty string (the only falsy string) all fall back to the default `d`. -/
def orDefault (x : Option String) (d : String) : String :=
  match x with
  | none => d
  | some s => if s = "" then d else s

/-- Whitespace characters removed by JS `String.prototype.trim` (the ASCII
ones, which are the ones relevant to tokens and configuration values). -/
def isJsWhitespace (c : Char) : Bool :=
  c = ' ' || c = '\t' || c = '\n' || c = '\r' || c = '\x0b' || c = '\x0c'

/-- JS `s.trim()`: drop leading and trailing whitespace. -/
def jsTrim (s : String) : String :=
  ⟨((s.data.dropWhile isJsWhitespace).reverse.dropWhile isJsWhitespace).reverse⟩

/-- UTF-8 encoding of one unicode scalar value, as numbers 0..255.  Models a
single character's bytes inside `Buffer.from(s, "utf8")`. -/
def utf8EncodeCharNat (c : Char) : List Nat :=
  let n := c.toNat
  if n < 0x80 then [n]
  else if n < 0x800 then [0xC0 + n / 64, 0x80 + n % 64]
  else if n < 0x10000 then [0xE0 + n / 4096, 0x80 + (n / 64) % 64, 0x80 + n % 64]
  else [0xF0 + n / 262144, 0x80 + (n / 4096) % 64, 0x80 + (n / 64) % 64, 0x80 + n % 64]

/-- `Buffer.from(s, "utf8")` as a list of byte values. -/
def utf8Bytes (s : String) : List Nat :=
  s.data.flatMap utf8EncodeCharNat

/-- Node's `crypto.timingSafeEqual(a, b)`: throws a `RangeError` when the two
buffers have different byte lengths, otherwise reports whether they hold the
same bytes (the constant-time execution itself is a non-functional property
and is not modelled). -/
def cryptoTimingSafeEqual (a b : List Nat) : Except String Bool :=
  if a.length = b.length then .ok (a = b)
  else .error "Input buffers must have the same byte length"

/-- `timingSafeEq` from src/index.ts: UTF-8 encode both strings, return
`false` on a length mismatch, and only then hand the buffers to
`crypto.timingSafeEqual`.  `Except` models JS exception propagation. -/
def timingSafeEq (a b : String) : Except String Bool :=
  let ba := utf8Bytes a
  let bb := utf8Bytes b
  if ba.length ≠ bb.length then .ok false
  else cryptoTimingSafeEqual ba bb

/-- The inbound-auth decision of the POST / handler (spec §4.1 `authorize`):
an empty configured secret disables authentication, otherwise the presented
token is compared with `timingSafeEq`. -/
def authorize (presented configured : String) : Except String Bool :=
  if configured = "" then .ok true
  else timingSafeEq presented configured

/-- One global single-character regex replace, `s.replace(/c/g, r)`, at the
character-list level. -/
def replaceAllChar (c : Char) (r : List Char) : List Char → List Char
  | [] => []
  | x :: xs => (if x = c then r else [x]) ++ replaceAllChar c r xs

/-- The three chained replaces of `escapeHtml`, in source order:
first `&` → `&amp;`, then `<` → `&lt;`, then `>` → `&gt;`. -/
def escL (l : List Char) : List Char :=
  replaceAllChar '>' "&gt;".data
    (replaceAllChar '<' "&lt;".data
      (replaceAllChar '&' "&amp;".data l))

/-- `escapeHtml` from src/index.ts (the `s || ""` null-guard is the identity
on actual strings). -/
def escapeHtml (s : String) : String :=
  ⟨escL s.data⟩

/-- Image of a single character under the composed escaping. -/
def escChar (c : Char) : List Char :=
  if c = '&' then "&amp;".data
  else if c = '<' then "&lt;".data
  else if c = '>' then "&gt;".data
  else [c]

/-- A `details.current_value` / `details.threshold` value: the payload type
allows `number | string`; numbers are modelled as integers (the fractional
rendering of JS floats plays no role in any claim). -/
inductive JSPrim where
  | num (n : Int)
  | str (s : String)
  deriving DecidableEq

/-- JS `String(v)` on a stored primitive value. -/
def JSPrim.jsToString : JSPrim → String
  | .num n => toString n
  | .str s => s

/-- One entry of the payload's `actions` array. -/
structure ActionItem where
  text : Option String
  url : Option String
  deriving DecidableEq

/-- The payload's optional `details` object. -/
structure KenerDetails where
  metric : Option String
  current_value : Option JSPrim
  threshold : Option JSPrim
  deriving DecidableEq

/-- `KenerPayload` (spec: InboundEvent): every field optional. -/
structure KenerPayload where
  id : Option String
  alert_name : Option String
  severity : Option String
  status : Option String
  source : Option String
  timestamp : Option String
  description : Option String
  details : Option KenerDetails
  actions : Option (List ActionItem)
  deriving DecidableEq

/-- The inbound event with every field absent (the empty JSON object). -/
def emptyKenerPayload : KenerPayload :=
  ⟨none, none, none, none, none, none, none, none, none⟩

/-- The record returned by `normalize` (spec: NormalizedAlert). -/
structure NormalizedAlert where
  id : String
  alertName : String
  severity : String
  status : String
  source : String
  timestamp : String
  description : String
  metric : String
  currentValue : Option JSPrim
  threshold : Option JSPrim
  actionText : String
  actionUrl : String
  deriving DecidableEq

/-- Result of `pickAction`. -/
structure PickedAction where
  text : String
  url : String
  deriving DecidableEq

/-- `pickAction` from src/index.ts: first element of a non-empty `actions`
array, else a synthesized default; `text` and `url` each fall back through
`||`. -/
def pickAction (p : KenerPayload) : PickedAction :=
  match p.actions with
  | some (a :: _) => { text := orDefault a.text "Open", url := orDefault a.url "" }
  | _ => { text := "Open", url := "" }

/-- `normalize` from src/index.ts.  `now` is the value the host clock would
produce as `new Date().toISOString()` at the moment of the call; the source
reads it exactly when `p.timestamp` is falsy. -/
def normalize (now : String) (p : KenerPayload) : NormalizedAlert :=
  let action := pickAction p
  let details := p.details.getD ⟨none, none, none⟩
  { id := orDefault p.id ""
    alertName := orDefault p.alert_name "Alert"
    severity := orDefault p.severity "unknown"
    status := orDefault p.status "UNKNOWN"
    source := orDefault p.source "Kener"
    timestamp := orDefault p.timestamp now
    description := orDefault p.description ""
    metric := orDefault details.metric ""
    currentValue := details.current_value
    threshold := details.threshold
    actionText := action.text
    actionUrl := action.url }

/-- Newline-separator form of JS `join`: the concatenation of `"\n" ++ line`
over a list, used to reassociate `joinLines` proofs. -/
def sepJoin : List String → String
  | [] => ""
  | x :: xs => ("\n" ++ x) ++ sepJoin xs

/-- `formatTime` from src/index.ts.  `toLocale` is the host capability
`iso ↦ new Date(iso).toLocaleString("en-GB", dateStyle medium, timeStyle
short, timeZone UTC)`; `Except.error` is the `catch` branch, which returns
the raw input unchanged. -/
def formatTime (toLocale : String → Except Unit String) (iso : String) : String :=
  match toLocale iso with
  | .ok s => s ++ " UTC"
  | .error _ => iso

/-- The status glyph.  The glyph strings are the exact character sequences
stored in the source file. -/
def statusEmoji (status : String) : String :=
  if status = "TRIGGERED" then "üö®"
  else if status = "RESOLVED" then "‚úÖ"
  else "‚ÑπÔ∏è"

/-- The severity glyph, with the exact character sequences of the source. -/
def severityEmoji (severity : String) : String :=
  if severity = "critical" then "üî¥"
  else if severity = "warning" then "üü†"
  else "üü¢"

/-- The bold title line pushed first by `buildTelegramMessage`. -/
def titleLine (status alertName : String) : String :=
  "<b>" ++ escapeHtml (statusEmoji status ++ " " ++ alertName) ++ "</b>"

/-- The severity line. -/
def severityLine (severity : String) : String :=
  severityEmoji severity ++ " <b>Severity:</b> <code>" ++ escapeHtml severity ++ "</code>"

/-- The status line. -/
def statusLine (status : String) : String :=
  "<b>Status:</b> <code>" ++ escapeHtml status ++ "</code>"

/-- The conditional source line. -/
def sourceLine (source : String) : String :=
  "<b>Source:</b> <code>" ++ escapeHtml source ++ "</code>"

/-- The conditional monitor (metric) line. -/
def monitorLine (metric : String) : String :=
  "<b>Monitor:</b> <code>" ++ escapeHtml metric ++ "</code>"

/-- The conditional current-value line; the stored value is stringified at
render time by `String(k.currentValue)`. -/
def currentLine (v : JSPrim) : String :=
  "<b>Current:</b> <code>" ++ escapeHtml v.jsToString ++ "</code>"

/-- The conditional threshold line. -/
def thresholdLine (v : JSPrim) : String :=
  "<b>Threshold:</b> <code>" ++ escapeHtml v.jsToString ++ "</code>"

/-- The conditional time line. -/
def timeLine (toLocale : String → Except Unit String) (ts : String) : String :=
  "<b>Time:</b> <code>" ++ escapeHtml (formatTime toLocale ts) ++ "</code>"

/-- The conditional trailing hyperlink line (it carries its own leading
newline in the source template). -/
def linkLine (url text : String) : String :=
  "\n<a href=\"" ++ escapeHtml url ++ "\">" ++ escapeHtml text ++ "</a>"

/-- Lines pushed by `if (k.description)`. -/
def descSeg (d : String) : List String :=
  if d ≠ "" then ["", escapeHtml d] else []

/-- Lines pushed by `if (k.source)`. -/
def sourceSeg (s : String) : List String :=
  if s ≠ "" then [sourceLine s] else []

/-- Lines pushed by `if (k.metric)`. -/
def monitorSeg (m : String) : List String :=
  if m ≠ "" then [monitorLine m] else []

/-- Lines pushed by `if (k.currentValue !== null)`. -/
def currentSeg : Option JSPrim → List String
  | some v => [currentLine v]
  | none => []

/-- Lines pushed by `if (k.threshold !== null)`. -/
def thresholdSeg : Option JSPrim → List String
  | some v => [thresholdLine v]
  | none => []

/-- Lines pushed by `if (k.timestamp)`. -/
def timeSeg (toLocale : String → Except Unit String) (ts : String) : List String :=
  if ts ≠ "" then [timeLine toLocale ts] else []

/-- Lines pushed by `if (k.actionUrl)`. -/
def linkSeg (url text : String) : List String :=
  if url ≠ "" then [linkLine url text] else []

/-- The `lines` array of `buildTelegramMessage`, in push order. -/
def messageLines (toLocale : String → Except Unit String) (k : NormalizedAlert) : List String :=
  [titleLine k.status k.alertName]
  ++ descSeg k.description
  ++ [""]
  ++ [severityLine k.severity]
  ++ [statusLine k.status]
  ++ sourceSeg k.source
  ++ monitorSeg k.metric
  ++ currentSeg k.currentValue
  ++ thresholdSeg k.threshold
  ++ timeSeg toLocale k.timestamp
  ++ linkSeg k.actionUrl k.actionText

/-- JS `Array.prototype.join("\n")`. -/
def joinLines : List String → String
  | [] => ""
  | [x] => x
  | x :: y :: ys => x ++ "\n" ++ joinLines (y :: ys)

/-- `buildTelegramMessage` from src/index.ts: build the lines, join with
newlines. -/
def buildTelegramMessage (toLocale : String → Except Unit String) (k : NormalizedAlert) : String :=
  joinLines (messageLines toLocale k)

/-- A piece of the rendered message: fixed markup emitted by the formatter
itself, or a hole carrying escaped free text. -/
inductive Chunk where
  | fixed (s : String)
  | hole (s : String)
  deriving DecidableEq

/-- Underlying text of a chunk. -/
def Chunk.str : Chunk → String
  | .fixed s => s
  | .hole s => s

/-- Whether a chunk is an escaped free-text hole. -/
def Chunk.isHole : Chunk → Bool
  | .fixed _ => false
  | .hole _ => true

/-- Concatenate a list of strings. -/
def concatStrs : List String → String
  | [] => ""
  | x :: xs => x ++ concatStrs xs

/-- Concatenate the text of a chunk list. -/
def chunksToString (cs : List Chunk) : String :=
  concatStrs (cs.map Chunk.str)

/-- Chunks of the title line. -/
def titleChunks (status alertName : String) : List Chunk :=
  [.fixed "<b>", .hole (escapeHtml (statusEmoji status ++ " " ++ alertName)), .fixed "</b>"]

/-- Chunks contributed by the description block, separators included. -/
def descChunks (d : String) : List Chunk :=
  if d ≠ "" then [.fixed "\n", .fixed "", .fixed "\n", .hole (escapeHtml d)] else []

/-- Chunks of the unconditional blank line. -/
def blankChunks : List Chunk :=
  [.fixed "\n", .fixed ""]

/-- Chunks of the severity line. -/
def severityChunks (sev : String) : List Chunk :=
  [.fixed "\n", .fixed (severityEmoji sev), .fixed " <b>Severity:</b> <code>",
   .hole (escapeHtml sev), .fixed "</code>"]

/-- Chunks of the status line. -/
def statusChunks (st : String) : List Chunk :=
  [.fixed "\n", .fixed "<b>Status:</b> <code>", .hole (escapeHtml st), .fixed "</code>"]

/-- Chunks of the conditional source line. -/
def sourceChunks (s : String) : List Chunk :=
  if s ≠ "" then
    [.fixed "\n", .fixed "<b>Source:</b> <code>", .hole (escapeHtml s), .fixed "</code>"]
  else []

/-- Chunks of the conditional monitor line. -/
def monitorChunks (m : String) : List Chunk :=
  if m ≠ "" then
    [.fixed "\n", .fixed "<b>Monitor:</b> <code>", .hole (escapeHtml m), .fixed "</code>"]
  else []

/-- Chunks of the conditional current-value line. -/
def currentChunks : Option JSPrim → List Chunk
  | some v =>
    [.fixed "\n", .fixed "<b>Current:</b> <code>", .hole (escapeHtml v.jsToString), .fixed "</code>"]
  | none => []

/-- Chunks of the conditional threshold line. -/
def thresholdChunks : Option JSPrim → List Chunk
  | some v =>
    [.fixed "\n", .fixed "<b>Threshold:</b> <code>", .hole (escapeHtml v.jsToString), .fixed "</code>"]
  | none => []

/-- Chunks of the conditional time line. -/
def timeChunks (toLocale : String → Except Unit String) (ts : String) : List Chunk :=
  if ts ≠ "" then
    [.fixed "\n", .fixed "<b>Time:</b> <code>",
     .hole (escapeHtml (formatTime toLocale ts)), .fixed "</code>"]
  else []

/-- Chunks of the conditional hyperlink line. -/
def linkChunks (url text : String) : List Chunk :=
  if url ≠ "" then
    [.fixed "\n", .fixed "\n<a href=\"", .hole (escapeHtml url), .fixed "\">",
     .hole (escapeHtml text), .fixed "</a>"]
  else []

/-- The complete chunk decomposition of the rendered message. -/
def messageChunks (toLocale : String → Except Unit String) (k : NormalizedAlert) : List Chunk :=
  titleChunks k.status k.alertName
  ++ descChunks k.description
  ++ blankChunks
  ++ severityChunks k.severity
  ++ statusChunks k.status
  ++ sourceChunks k.source
  ++ monitorChunks k.metric
  ++ currentChunks k.currentValue
  ++ thresholdChunks k.threshold
  ++ timeChunks toLocale k.timestamp
  ++ linkChunks k.actionUrl k.actionText

/-- Every fixed piece of markup the formatter can emit, as a closed list
independent of the alert's free text (the three severity glyph strings are
the source's literals). -/
def fixedMarkupStrings : List String :=
  ["<b>", "</b>", "\n", "",
   "üî¥", "üü†", "üü¢",
   " <b>Severity:</b> <code>", "</code>", "<b>Status:</b> <code>",
   "<b>Source:</b> <code>", "<b>Monitor:</b> <code>", "<b>Current:</b> <code>",
   "<b>Threshold:</b> <code>", "<b>Time:</b> <code>", "\n<a href=\"", "\">", "</a>"]

/-- Classification used for the escaping invariant: a chunk is either a hole
produced by `escapeHtml`, or fixed markup drawn from the formatter's own
literal inventory. -/
def goodChunk (c : Chunk) : Prop :=
  (∃ s, c = Chunk.hole (escapeHtml s)) ∨
  (c.isHole = false ∧ c.str ∈ fixedMarkupStrings)

/-- Character lists in which the markup metacharacters occur only as the
head of one of the three escape entities: no raw `<`, no raw `>`, and every
`&` immediately opens `&amp;`, `&lt;` or `&gt;`. -/
inductive SafeRun : List Char → Prop
  | nil : SafeRun []
  | plain {c : Char} {l : List Char} :
      c ≠ '&' → c ≠ '<' → c ≠ '>' → SafeRun l → SafeRun (c :: l)
  | ampEnt {l : List Char} : SafeRun l → SafeRun ('&' :: 'a' :: 'm' :: 'p' :: ';' :: l)
  | ltEnt {l : List Char} : SafeRun l → SafeRun ('&' :: 'l' :: 't' :: ';' :: l)
  | gtEnt {l : List Char} : SafeRun l → SafeRun ('&' :: 'g' :: 't' :: ';' :: l)

/-- Boolean test: does `p` occur at the very start of `l`? -/
def lstartsWith : List Char → List Char → Bool
  | [], _ => true
  | _ :: _, [] => false
  | p :: ps, x :: xs => p == x && lstartsWith ps xs

/-- Does some emitted line start with the given marker text? -/
def lineAny (marker : String) (lines : List String) : Bool :=
  lines.any (fun l => lstartsWith marker.data l.data)

/-- Result of the JS `Number(...)` conversion: not-a-number, an infinity, or
a finite value (finite values as rationals; every float is one). -/
inductive JSNumber where
  | nan
  | posInf
  | negInf
  | finite (q : Rat)
  deriving DecidableEq

/-- `Number.isFinite(n) && n > 0`, the acceptance test `loadConfig` applies
to the parsed port. -/
def JSNumber.isFinitePos : JSNumber → Bool
  | .finite q => decide (0 < q)
  | _ => false

/-- `AppConfig` from src/index.ts. -/
structure AppConfig where
  port : Rat
  kenerWebhookSecret : String
  telegramBotToken : String
  telegramChatId : String
  deriving DecidableEq

/-- The four environment variables read by `loadConfig`; `none` models an
unset variable. -/
structure EnvVars where
  PORT : Option String
  KENER_WEBHOOK_SECRET : Option String
  TELEGRAM_BOT_TOKEN : Option String
  TELEGRAM_CHAT_ID : Option String

/-- `loadConfig` from src/index.ts.  `toNumber` is the host's `Number(...)`
string-to-number conversion.  `Except.error` models the thrown startup
errors, with the source's messages. -/
def loadConfig (toNumber : String → JSNumber) (env : EnvVars) : Except String AppConfig :=
  match toNumber (jsTrim (orDefault env.PORT "3000")) with
  | .finite q =>
    if q ≤ 0 then
      .error ("Invalid PORT value \"" ++ jsTrim (orDefault env.PORT "3000") ++ "\"")
    else if jsTrim (orDefault env.TELEGRAM_BOT_TOKEN "") = "" then
      .error "Missing TELEGRAM_BOT_TOKEN"
    else if jsTrim (orDefault env.TELEGRAM_CHAT_ID "") = "" then
      .error "Missing TELEGRAM_CHAT_ID"
    else
      .ok { port := q,
            kenerWebhookSecret := jsTrim (orDefault env.KENER_WEBHOOK_SECRET ""),
            telegramBotToken := jsTrim (orDefault env.TELEGRAM_BOT_TOKEN ""),
            telegramChatId := jsTrim (orDefault env.TELEGRAM_CHAT_ID "") }
  | _ => .error ("Invalid PORT value \"" ++ jsTrim (orDefault env.PORT "3000") ++ "\"")

/-- The outbound `fetch` request `sendTelegram` constructs. -/
structure TelegramRequest where
  url : String
  chat_id : String
  text : String
  parse_mode : String
  disable_web_page_preview : Bool
  deriving DecidableEq

/-- Construction of the outbound request, from the source's `fetch` call and
JSON body. -/
def mkTelegramRequest (text : String) (cfg : AppConfig) : TelegramRequest :=
  { url := "https://api.telegram.org/bot" ++ cfg.telegramBotToken ++ "/sendMessage"
    chat_id := cfg.telegramChatId
    text := text
    parse_mode := "HTML"
    disable_web_page_preview := true }

/-- A successfully decoded JSON response body, reduced to what the source
reads from it: the truthiness of its `ok` acknowledgment flag and its
`JSON.stringify` rendering. -/
structure TelegramJsonBody where
  ok : Bool
  raw : String
  deriving DecidableEq

/-- The observed `fetch` response: `ok` is the transport-level success flag
(HTTP 2xx), `status` the HTTP status code, and `body` the decoded JSON body
(`none` when `resp.json()` rejected, which the source's
`.catch(() => null)` turns into `null`). -/
structure TelegramResponse where
  ok : Bool
  status : Nat
  body : Option TelegramJsonBody
  deriving DecidableEq

/-- The response-checking tail of `sendTelegram`: success needs both
`resp.ok` and a decoded body whose `ok` flag is truthy, otherwise an error
carrying the HTTP status and `JSON.stringify(data)` (which is `"null"` for
an unparseable body). -/
def handleTelegramResponse (resp : TelegramResponse) : Except String Unit :=
  let dataOk := match resp.body with | some d => d.ok | none => false
  let dataStr := match resp.body with | some d => d.raw | none => "null"
  if !resp.ok || !dataOk then
    .error ("Telegram sendMessage failed: HTTP " ++ toString resp.status ++ " body=" ++ dataStr)
  else .ok ()

/-- `sendTelegram` from src/index.ts: build the request, observe the
network's response through `net`, check it. -/
def sendTelegram (net : TelegramRequest → TelegramResponse) (text : String)
    (cfg : AppConfig) : Except String Unit :=
  handleTelegramResponse (net (mkTelegramRequest text cfg))

/-- The two JSON response bodies the POST / handler can send. -/
inductive RespBody where
  | okTrue
  | invalidToken
  deriving DecidableEq

/-- Observable outcome of one POST / request: the HTTP response, the
outbound sends attempted by the detached dispatch, and the error log lines
produced by its `.catch`. -/
structure RelayResult where
  status : Nat
  body : RespBody
  sent : List TelegramRequest
  logs : List String
  deriving DecidableEq

/-- The POST / handler from src/index.ts.  When a secret is configured the
trimmed `x-kener-token` header must pass `timingSafeEq`, else the handler
answers 401 and stops.  Otherwise it acknowledges with 200 and runs
normalize → format → dispatch, whose failure is only logged.  The outer
`Except` models a JS exception escaping the handler. -/
def handlePost (cfg : AppConfig) (toLocale : String → Except Unit String) (now : String)
    (net : TelegramRequest → TelegramResponse) (token : Option String)
    (payload : KenerPayload) : Except String RelayResult :=
  match authorize (jsTrim (orDefault token "")) cfg.kenerWebhookSecret with
  | .error e => .error e
  | .ok false => .ok { status := 401, body := .invalidToken, sent := [], logs := [] }
  | .ok true =>
    match sendTelegram net (buildTelegramMessage toLocale (normalize now payload)) cfg with
    | .ok _ =>
      .ok { status := 200, body := .okTrue,
            sent := [mkTelegramRequest (buildTelegramMessage toLocale (normalize now payload)) cfg],
            logs := [] }
    | .error e =>
      .ok { status := 200, body := .okTrue,
            sent := [mkTelegramRequest (buildTelegramMessage toLocale (normalize now payload)) cfg],
            logs := ["[relay] telegram error: " ++ e] }

/-- Concrete host renderer that always fails (the `catch` path). -/
def tlErr : String → Except Unit String := fun _ => Except.error ()

/-- Concrete host renderer: fails on one marked input, otherwise returns a
fixed en-GB medium-date short-time rendering. -/
def tlFix : String → Except Unit String := fun iso =>
  if iso = "bad-timestamp" then Except.error () else Except.ok "1 Jan 2025, 00:00"

/-- Concrete network that acknowledges every send. -/
def netOkW : TelegramRequest → TelegramResponse := fun _ =>
  { ok := true, status := 200, body := some { ok := true, raw := "ack" } }

/-- Concrete network whose response is transport-success but `ok:false`. -/
def netNackW : TelegramRequest → TelegramResponse := fun _ =>
  { ok := true, status := 200, body := some { ok := false, raw := "nack" } }

/-- Concrete network returning HTTP 502 with an undecodable body. -/
def netDownW : TelegramRequest → TelegramResponse := fun _ =>
  { ok := false, status := 502, body := none }

/-- Concrete configuration with a configured shared secret. -/
def cfgW : AppConfig :=
  { port := 3000, kenerWebhookSecret := "secret", telegramBotToken := "BOT", telegramChatId := "42" }

/-- Alert whose optional render inputs are all empty or null. -/
def alertBare : NormalizedAlert :=
  { id := "", alertName := "Alert", severity := "unknown", status := "UNKNOWN",
    source := "", timestamp := "", description := "", metric := "",
    currentValue := none, threshold := none, actionText := "Open", actionUrl := "" }

/-- `alertBare` with a non-empty timestamp. -/
def alertTs : NormalizedAlert :=
  { alertBare with timestamp := "2025-01-01T00:00:00.000Z" }

/-- `alertBare` with a stored current value. -/
def alertCur : NormalizedAlert :=
  { alertBare with currentValue := some (JSPrim.num 5) }

/-- Alert carrying markup metacharacters in its description. -/
def alertScript : NormalizedAlert :=
  { alertBare with description := "<script>&", timestamp := "2025-01-01" }

/-- Inbound event carrying only a timestamp. -/
def payloadTs : KenerPayload :=
  { emptyKenerPayload with timestamp := some "2024-05-05T00:00:00.000Z" }

/-- Concrete `Number(...)` parser fixture. -/
def tnW : String → JSNumber := fun s =>
  if s = "3000" then JSNumber.finite 3000 else JSNumber.nan

/-- Concrete environment fixture with required credentials present. -/
def envW : EnvVars :=
  { PORT := none, KENER_WEBHOOK_SECRET := some "secret",
    TELEGRAM_BOT_TOKEN := some "BOT", TELEGRAM_CHAT_ID := some "42" }

/-! Basic bridges between `String` and its character list. -/

theorem sdata_append (a b : String) : (a ++ b).data = a.data ++ b.data := by
  cases a; cases b; rfl

theorem sdata_empty : ("" : String).data = [] := rfl

theorem sdata_ext {a b : String} (h : a.data = b.data) : a = b := by
  cases a; cases b; exact congrArg String.mk h

theorem escapeHtml_data (s : String) : (escapeHtml s).data = escL s.data := rfl

theorem append_empty_str (s : String) : s ++ "" = s :=
  sdata_ext (by simp [sdata_append, sdata_empty])

theorem empty_append_str (s : String) : "" ++ s = s :=
  sdata_ext (by simp [sdata_append, sdata_empty])

/-! The escaping pipeline as a per-character homomorphism. -/

theorem replaceAllChar_append (c : Char) (r a b : List Char) :
    replaceAllChar c r (a ++ b) = replaceAllChar c r a ++ replaceAllChar c r b := by
  induction a with
  | nil => rfl
  | cons x xs ih => simp [replaceAllChar, ih]

theorem escL_append (a b : List Char) : escL (a ++ b) = escL a ++ escL b := by
  simp [escL, replaceAllChar_append]

theorem escL_single (x : Char) : escL [x] = escChar x := by
  by_cases h1 : x = '&'
  · subst h1; decide
  · by_cases h2 : x = '<'
    · subst h2; decide
    · by_cases h3 : x = '>'
      · subst h3; decide
      · simp [escL, replaceAllChar, escChar, h1, h2, h3]

theorem escL_cons (x : Char) (l : List Char) : escL (x :: l) = escChar x ++ escL l := by
  have h : x :: l = [x] ++ l := rfl
  rw [h, escL_append, escL_single]

theorem escChar_no_lt (x : Char) : '<' ∉ escChar x := by
  by_cases h1 : x = '&'
  · subst h1; decide
  · by_cases h2 : x = '<'
    · subst h2; decide
    · by_cases h3 : x = '>'
      · subst h3; decide
      · simp [escChar, h1, h2, h3]
        exact fun hh => h2 hh.symm

theorem escChar_no_gt (x : Char) : '>' ∉ escChar x := by
  by_cases h1 : x = '&'
  · subst h1; decide
  · by_cases h2 : x = '<'
    · subst h2; decide
    · by_cases h3 : x = '>'
      · subst h3; decide
      · simp [escChar, h1, h2, h3]
        exact fun hh => h3 hh.symm

theorem escL_no_lt (l : List Char) : '<' ∉ escL l := by
  induction l with
  | nil => simp [escL, replaceAllChar]
  | cons x xs ih =>
    rw [escL_cons]
    intro hmem
    rcases List.mem_append.mp hmem with h | h
    · exact escChar_no_lt x h
    · exact ih h

theorem escL_no_gt (l : List Char) : '>' ∉ escL l := by
  induction l with
  | nil => simp [escL, replaceAllChar]
  | cons x xs ih =>
    rw [escL_cons]
    intro hmem
    rcases List.mem_append.mp hmem with h | h
    · exact escChar_no_gt x h
    · exact ih h

/-! `SafeRun` facts. -/

theorem SafeRun.append {a b : List Char} (ha : SafeRun a) (hb : SafeRun b) :
    SafeRun (a ++ b) := by
  induction ha with
  | nil => exact hb
  | plain h1 h2 h3 _ ih => exact SafeRun.plain h1 h2 h3 ih
  | ampEnt _ ih => exact SafeRun.ampEnt ih
  | ltEnt _ ih => exact SafeRun.ltEnt ih
  | gtEnt _ ih => exact SafeRun.gtEnt ih

theorem safeRun_escChar (x : Char) : SafeRun (escChar x) := by
  by_cases h1 : x = '&'
  · subst h1
    exact SafeRun.ampEnt SafeRun.nil
  · by_cases h2 : x = '<'
    · subst h2
      exact SafeRun.ltEnt SafeRun.nil
    · by_cases h3 : x = '>'
      · subst h3
        exact SafeRun.gtEnt SafeRun.nil
      · simp only [escChar, h1, h2, h3, if_false]
        exact SafeRun.plain h1 h2 h3 SafeRun.nil

theorem safeRun_escL (l : List Char) : SafeRun (escL l) := by
  induction l with
  | nil => exact SafeRun.nil
  | cons x xs ih =>
    rw [escL_cons]
    exact (safeRun_escChar x).append ih

theorem safeRun_escapeHtml (s : String) : SafeRun (escapeHtml s).data :=
  safeRun_escL s.data

/-! `lstartsWith` toolkit. -/

theorem lsw_split (p a b : List Char) :
    lstartsWith p (a ++ b)
      = (lstartsWith (p.take a.length) a && lstartsWith (p.drop a.length) b) := by
  induction a generalizing p with
  | nil => simp [lstartsWith]
  | cons x xs ih =>
    cases p with
    | nil => simp [lstartsWith]
    | cons q qs =>
      simp only [List.cons_append, lstartsWith, List.length_cons, List.take_succ_cons,
        List.drop_succ_cons, List.append_eq, ih, Bool.and_assoc]

theorem lsw_kill (p a b : List Char) (h : lstartsWith (p.take a.length) a = false) :
    lstartsWith p (a ++ b) = false := by
  rw [lsw_split, h, Bool.false_and]

theorem lsw_chomp (p a b : List Char) (h : lstartsWith (p.take a.length) a = true) :
    lstartsWith p (a ++ b) = lstartsWith (p.drop a.length) b := by
  rw [lsw_split, h, Bool.true_and]

theorem lsw_full (p a b : List Char) (h1 : lstartsWith (p.take a.length) a = true)
    (h2 : p.drop a.length = []) : lstartsWith p (a ++ b) = true := by
  rw [lsw_chomp p a b h1, h2]
  rfl

theorem lsw_head_not_mem {c : Char} {l : List Char} (p : List Char) (h : c ∉ l) :
    lstartsWith (c :: p) l = false := by
  cases l with
  | nil => rfl
  | cons x xs =>
    have hx : (c == x) = false := by
      simp only [beq_eq_false_iff_ne, ne_eq]
      exact fun he => h (he ▸ List.mem_cons_self x xs)
    simp [lstartsWith, hx]

theorem lsw_escapeHtml_lt (p : List Char) (s : String) (h : p.head? = some '<') :
    lstartsWith p (escapeHtml s).data = false := by
  cases p with
  | nil => simp at h
  | cons c cs =>
    have hc : c = '<' := by simpa using h
    subst hc
    exact lsw_head_not_mem cs (escL_no_lt s.data)

theorem lsw_escL_nl (p : List Char) (l : List Char) (h1 : p.head? = some '\n')
    (h2 : p.tail.head? = some '<') : lstartsWith p (escL l) = false := by
  cases p with
  | nil => simp at h1
  | cons c cs =>
    have hc : c = '\n' := by simpa using h1
    subst hc
    have h2' : cs.head? = some '<' := by simpa using h2
    induction l with
    | nil => rfl
    | cons x xs ih =>
      rw [escL_cons]
      by_cases hx : x = '\n'
      · subst hx
        have he : escChar '\n' = ['\n'] := by decide
        rw [he]
        simp only [List.cons_append, lstartsWith, beq_self_eq_true, Bool.true_and]
        cases cs with
        | nil => simp at h2'
        | cons d ds =>
          have hd : d = '<' := by simpa using h2'
          subst hd
          exact lsw_head_not_mem ds (escL_no_lt xs)
      · by_cases hamp : x = '&'
        · subst hamp
          have he : escChar '&' = '&' :: 'a' :: 'm' :: 'p' :: ';' :: [] := by decide
          rw [he]
          have hne : ('\n' == '&') = false := by decide
          simp [lstartsWith, hne]
        · by_cases hlt : x = '<'
          · subst hlt
            have he : escChar '<' = '&' :: 'l' :: 't' :: ';' :: [] := by decide
            rw [he]
            have hne : ('\n' == '&') = false := by decide
            simp [lstartsWith, hne]
          · by_cases hgt : x = '>'
            · subst hgt
              have he : escChar '>' = '&' :: 'g' :: 't' :: ';' :: [] := by decide
              rw [he]
              have hne : ('\n' == '&') = false := by decide
              simp [lstartsWith, hne]
            · have he : escChar x = [x] := by simp [escChar, hamp, hlt, hgt]
              rw [he]
              have hne : ('\n' == x) = false := by
                simp only [beq_eq_false_iff_ne, ne_eq]
                exact fun hh => hx hh.symm
              simp [lstartsWith, hne]

theorem lsw_escapeHtml_nl (p : List Char) (s : String) (h1 : p.head? = some '\n')
    (h2 : p.tail.head? = some '<') : lstartsWith p (escapeHtml s).data = false :=
  lsw_escL_nl p s.data h1 h2

/-! Marker tests against each line shape. -/

theorem lsw_codeLine_false (M pre inner : String)
    (h : lstartsWith (M.data.take pre.data.length) pre.data = false) :
    lstartsWith M.data (pre ++ inner ++ "</code>").data = false := by
  rw [sdata_append, sdata_append, List.append_assoc]
  exact lsw_kill _ _ _ h

theorem lsw_codeLine_true (M pre inner : String)
    (h1 : lstartsWith (M.data.take pre.data.length) pre.data = true)
    (h2 : M.data.drop pre.data.length = []) :
    lstartsWith M.data (pre ++ inner ++ "</code>").data = true := by
  rw [sdata_append, sdata_append, List.append_assoc]
  exact lsw_full _ _ _ h1 h2

theorem lsw_titleLine_false (M st name : String)
    (h0 : lstartsWith (M.data.take ("<b>" : String).data.length) ("<b>" : String).data = true)
    (h1 : lstartsWith ((M.data.drop ("<b>" : String).data.length).take
        ("üö® " : String).data.length)
        ("üö® " : String).data = false)
    (h2 : lstartsWith ((M.data.drop ("<b>" : String).data.length).take
        ("‚úÖ " : String).data.length)
        ("‚úÖ " : String).data = false)
    (h3 : lstartsWith ((M.data.drop ("<b>" : String).data.length).take
        ("‚ÑπÔ∏è " : String).data.length)
        ("‚ÑπÔ∏è " : String).data = false) :
    lstartsWith M.data (titleLine st name).data = false := by
  unfold titleLine
  by_cases hs1 : st = "TRIGGERED"
  · rw [hs1, show statusEmoji "TRIGGERED" = "üö®" from by decide,
      show ("üö®" ++ " " : String) = "üö® " from by decide,
      sdata_append, sdata_append, escapeHtml_data,
      show ("üö® " ++ name).data
        = ("üö® " : String).data ++ name.data from sdata_append _ _,
      escL_append,
      show escL ("üö® " : String).data
        = ("üö® " : String).data from by decide,
      List.append_assoc, List.append_assoc]
    rw [lsw_chomp _ _ _ h0]
    exact lsw_kill _ _ _ h1
  · by_cases hs2 : st = "RESOLVED"
    · rw [hs2, show statusEmoji "RESOLVED" = "‚úÖ" from by decide,
        show ("‚úÖ" ++ " " : String) = "‚úÖ " from by decide,
        sdata_append, sdata_append, escapeHtml_data,
        show ("‚úÖ " ++ name).data
          = ("‚úÖ " : String).data ++ name.data from sdata_append _ _,
        escL_append,
        show escL ("‚úÖ " : String).data
          = ("‚úÖ " : String).data from by decide,
        List.append_assoc, List.append_assoc]
      rw [lsw_chomp _ _ _ h0]
      exact lsw_kill _ _ _ h2
    · rw [show statusEmoji st = "‚ÑπÔ∏è" from by
          simp [statusEmoji, hs1, hs2],
        show ("‚ÑπÔ∏è" ++ " " : String)
          = "‚ÑπÔ∏è " from by decide,
        sdata_append, sdata_append, escapeHtml_data,
        show ("‚ÑπÔ∏è " ++ name).data
          = ("‚ÑπÔ∏è " : String).data ++ name.data from
          sdata_append _ _,
        escL_append,
        show escL ("‚ÑπÔ∏è " : String).data
          = ("‚ÑπÔ∏è " : String).data from by decide,
        List.append_assoc, List.append_assoc]
      rw [lsw_chomp _ _ _ h0]
      exact lsw_kill _ _ _ h3

theorem lsw_severityLine_false (M sev : String)
    (h1 : lstartsWith (M.data.take ("üî¥" : String).data.length)
        ("üî¥" : String).data = false)
    (h2 : lstartsWith (M.data.take ("üü†" : String).data.length)
        ("üü†" : String).data = false)
    (h3 : lstartsWith (M.data.take ("üü¢" : String).data.length)
        ("üü¢" : String).data = false) :
    lstartsWith M.data (severityLine sev).data = false := by
  unfold severityLine
  by_cases hc : sev = "critical"
  · rw [hc, show severityEmoji "critical" = "üî¥" from by decide,
      sdata_append, sdata_append, sdata_append, List.append_assoc, List.append_assoc]
    exact lsw_kill _ _ _ h1
  · by_cases hw : sev = "warning"
    · rw [hw, show severityEmoji "warning" = "üü†" from by decide,
        sdata_append, sdata_append, sdata_append, List.append_assoc, List.append_assoc]
      exact lsw_kill _ _ _ h2
    · rw [show severityEmoji sev = "üü¢" from by
          simp [severityEmoji, hc, hw],
        sdata_append, sdata_append, sdata_append, List.append_assoc, List.append_assoc]
      exact lsw_kill _ _ _ h3

theorem lsw_linkLine_false (M url text : String)
    (h : lstartsWith (M.data.take ("\n<a href=\"" : String).data.length)
        ("\n<a href=\"" : String).data = false) :
    lstartsWith M.data (linkLine url text).data = false := by
  unfold linkLine
  rw [sdata_append, sdata_append, sdata_append, sdata_append,
    List.append_assoc, List.append_assoc, List.append_assoc]
  exact lsw_kill _ _ _ h

theorem lsw_linkLine_true (M url text : String)
    (h1 : lstartsWith (M.data.take ("\n<a href=\"" : String).data.length)
        ("\n<a href=\"" : String).data = true)
    (h2 : M.data.drop ("\n<a href=\"" : String).data.length = []) :
    lstartsWith M.data (linkLine url text).data = true := by
  unfold linkLine
  rw [sdata_append, sdata_append, sdata_append, sdata_append,
    List.append_assoc, List.append_assoc, List.append_assoc]
  exact lsw_full _ _ _ h1 h2

theorem lsw_titleLine_false0 (M st name : String)
    (h : lstartsWith (M.data.take ("<b>" : String).data.length)
        ("<b>" : String).data = false) :
    lstartsWith M.data (titleLine st name).data = false := by
  unfold titleLine
  rw [sdata_append, sdata_append, List.append_assoc]
  exact lsw_kill _ _ _ h

/-! Per-marker line detection over the whole message. -/

theorem lineAny_source_iff (tl : String → Except Unit String) (k : NormalizedAlert) :
    lineAny "<b>Source:" (messageLines tl k) = true ↔ k.source ≠ "" := by
  have hTitle : lstartsWith ("<b>Source:" : String).data
      (titleLine k.status k.alertName).data = false :=
    lsw_titleLine_false _ _ _ (by decide) (by decide) (by decide) (by decide)
  have hSev : lstartsWith ("<b>Source:" : String).data
      (severityLine k.severity).data = false :=
    lsw_severityLine_false _ _ (by decide) (by decide) (by decide)
  have hStatus : lstartsWith ("<b>Source:" : String).data
      (statusLine k.status).data = false := by
    unfold statusLine
    exact lsw_codeLine_false _ _ _ (by decide)
  have hEmpty : lstartsWith ("<b>Source:" : String).data ("" : String).data = false := by
    decide
  have hDesc : (descSeg k.description).any
      (fun l => lstartsWith ("<b>Source:" : String).data l.data) = false := by
    unfold descSeg
    split_ifs
    · simp only [List.any_cons, List.any_nil, Bool.or_false, hEmpty, Bool.false_or]
      exact lsw_escapeHtml_lt _ _ (by decide)
    · rfl
  have hMon : (monitorSeg k.metric).any
      (fun l => lstartsWith ("<b>Source:" : String).data l.data) = false := by
    unfold monitorSeg
    split_ifs
    · simp only [List.any_cons, List.any_nil, Bool.or_false]
      unfold monitorLine
      exact lsw_codeLine_false _ _ _ (by decide)
    · rfl
  have hCur : (currentSeg k.currentValue).any
      (fun l => lstartsWith ("<b>Source:" : String).data l.data) = false := by
    cases k.currentValue with
    | none => rfl
    | some v =>
      simp only [currentSeg, List.any_cons, List.any_nil, Bool.or_false]
      unfold currentLine
      exact lsw_codeLine_false _ _ _ (by decide)
  have hThr : (thresholdSeg k.threshold).any
      (fun l => lstartsWith ("<b>Source:" : String).data l.data) = false := by
    cases k.threshold with
    | none => rfl
    | some v =>
      simp only [thresholdSeg, List.any_cons, List.any_nil, Bool.or_false]
      unfold thresholdLine
      exact lsw_codeLine_false _ _ _ (by decide)
  have hTime : (timeSeg tl k.timestamp).any
      (fun l => lstartsWith ("<b>Source:" : String).data l.data) = false := by
    unfold timeSeg
    split_ifs
    · simp only [List.any_cons, List.any_nil, Bool.or_false]
      unfold timeLine
      exact lsw_codeLine_false _ _ _ (by decide)
    · rfl
  have hLink : (linkSeg k.actionUrl k.actionText).any
      (fun l => lstartsWith ("<b>Source:" : String).data l.data) = false := by
    unfold linkSeg
    split_ifs
    · simp only [List.any_cons, List.any_nil, Bool.or_false]
      exact lsw_linkLine_false _ _ _ (by decide)
    · rfl
  have hSrc : (sourceSeg k.source).any
      (fun l => lstartsWith ("<b>Source:" : String).data l.data)
      = decide (k.source ≠ "") := by
    unfold sourceSeg
    split_ifs with h
    · simp only [List.any_cons, List.any_nil, Bool.or_false]
      unfold sourceLine
      rw [lsw_codeLine_true _ _ _ (by decide) (by decide)]
      simp [h]
    · simp [h]
  unfold lineAny messageLines
  simp only [List.any_append, List.any_cons, List.any_nil, Bool.or_false,
    hTitle, hSev, hStatus, hEmpty, hDesc, hMon, hCur, hThr, hTime, hLink, hSrc,
    Bool.false_or, Bool.or_false, decide_eq_true_eq]

theorem lineAny_monitor_iff (tl : String → Except Unit String) (k : NormalizedAlert) :
    lineAny "<b>Monitor:" (messageLines tl k) = true ↔ k.metric ≠ "" := by
  have hTitle : lstartsWith ("<b>Monitor:" : String).data
      (titleLine k.status k.alertName).data = false :=
    lsw_titleLine_false _ _ _ (by decide) (by decide) (by decide) (by decide)
  have hSev : lstartsWith ("<b>Monitor:" : String).data
      (severityLine k.severity).data = false :=
    lsw_severityLine_false _ _ (by decide) (by decide) (by decide)
  have hStatus : lstartsWith ("<b>Monitor:" : String).data
      (statusLine k.status).data = false := by
    unfold statusLine
    exact lsw_codeLine_false _ _ _ (by decide)
  have hEmpty : lstartsWith ("<b>Monitor:" : String).data ("" : String).data = false := by
    decide
  have hDesc : (descSeg k.description).any
      (fun l => lstartsWith ("<b>Monitor:" : String).data l.data) = false := by
    unfold descSeg
    split_ifs
    · simp only [List.any_cons, List.any_nil, Bool.or_false, hEmpty, Bool.false_or]
      exact lsw_escapeHtml_lt _ _ (by decide)
    · rfl
  have hMon : (monitorSeg k.metric).any
      (fun l => lstartsWith ("<b>Monitor:" : String).data l.data)
      = decide (k.metric ≠ "") := by
    unfold monitorSeg
    split_ifs with h
    · simp only [List.any_cons, List.any_nil, Bool.or_false]
      unfold monitorLine
      rw [lsw_codeLine_true _ _ _ (by decide) (by decide)]
      simp [h]
    · simp [h]
  have hCur : (currentSeg k.currentValue).any
      (fun l => lstartsWith ("<b>Monitor:" : String).data l.data) = false := by
    cases k.currentValue with
    | none => rfl
    | some v =>
      simp only [currentSeg, List.any_cons, List.any_nil, Bool.or_false]
      unfold currentLine
      exact lsw_codeLine_false _ _ _ (by decide)
  have hThr : (thresholdSeg k.threshold).any
      (fun l => lstartsWith ("<b>Monitor:" : String).data l.data) = false := by
    cases k.threshold with
    | none => rfl
    | some v =>
      simp only [thresholdSeg, List.any_cons, List.any_nil, Bool.or_false]
      unfold thresholdLine
      exact lsw_codeLine_false _ _ _ (by decide)
  have hTime : (timeSeg tl k.timestamp).any
      (fun l => lstartsWith ("<b>Monitor:" : String).data l.data) = false := by
    unfold timeSeg
    split_ifs
    · simp only [List.any_cons, List.any_nil, Bool.or_false]
      unfold timeLine
      exact lsw_codeLine_false _ _ _ (by decide)
    · rfl
  have hLink : (linkSeg k.actionUrl k.actionText).any
      (fun l => lstartsWith ("<b>Monitor:" : String).data l.data) = false := by
    unfold linkSeg
    split_ifs
    · simp only [List.any_cons, List.any_nil, Bool.or_false]
      exact lsw_linkLine_false _ _ _ (by decide)
    · rfl
  have hSrc : (sourceSeg k.source).any
      (fun l => lstartsWith ("<b>Monitor:" : String).data l.data) = false := by
    unfold sourceSeg
    split_ifs
    · simp only [List.any_cons, List.any_nil, Bool.or_false]
      unfold sourceLine
      exact lsw_codeLine_false _ _ _ (by decide)
    · rfl
  unfold lineAny messageLines
  simp only [List.any_append, List.any_cons, List.any_nil, Bool.or_false,
    hTitle, hSev, hStatus, hEmpty, hDesc, hMon, hCur, hThr, hTime, hLink, hSrc,
    Bool.false_or, Bool.or_false, decide_eq_true_eq]


theorem lineAny_current_iff (tl : String → Except Unit String) (k : NormalizedAlert) :
    lineAny "<b>Current:" (messageLines tl k) = true ↔ k.currentValue ≠ none := by
  have hTitle : lstartsWith ("<b>Current:" : String).data
      (titleLine k.status k.alertName).data = false :=
    lsw_titleLine_false _ _ _ (by decide) (by decide) (by decide) (by decide)
  have hSev : lstartsWith ("<b>Current:" : String).data
      (severityLine k.severity).data = false :=
    lsw_severityLine_false _ _ (by decide) (by decide) (by decide)
  have hStatus : lstartsWith ("<b>Current:" : String).data
      (statusLine k.status).data = false := by
    unfold statusLine
    exact lsw_codeLine_false _ _ _ (by decide)
  have hEmpty : lstartsWith ("<b>Current:" : String).data ("" : String).data = false := by
    decide
  have hDesc : (descSeg k.description).any
      (fun l => lstartsWith ("<b>Current:" : String).data l.data) = false := by
    unfold descSeg
    split_ifs
    · simp only [List.any_cons, List.any_nil, Bool.or_false, hEmpty, Bool.false_or]
      exact lsw_escapeHtml_lt _ _ (by decide)
    · rfl
  have hMon : (monitorSeg k.metric).any
      (fun l => lstartsWith ("<b>Current:" : String).data l.data) = false := by
    unfold monitorSeg
    split_ifs
    · simp only [List.any_cons, List.any_nil, Bool.or_false]
      unfold monitorLine
      exact lsw_codeLine_false _ _ _ (by decide)
    · rfl
  have hCur : (currentSeg k.currentValue).any
      (fun l => lstartsWith ("<b>Current:" : String).data l.data)
      = decide (k.currentValue ≠ none) := by
    cases k.currentValue with
    | none => simp [currentSeg]
    | some v =>
      simp only [currentSeg, List.any_cons, List.any_nil, Bool.or_false]
      unfold currentLine
      rw [lsw_codeLine_true _ _ _ (by decide) (by decide)]
      simp
  have hThr : (thresholdSeg k.threshold).any
      (fun l => lstartsWith ("<b>Current:" : String).data l.data) = false := by
    cases k.threshold with
    | none => rfl
    | some v =>
      simp only [thresholdSeg, List.any_cons, List.any_nil, Bool.or_false]
      unfold thresholdLine
      exact lsw_codeLine_false _ _ _ (by decide)
  have hTime : (timeSeg tl k.timestamp).any
      (fun l => lstartsWith ("<b>Current:" : String).data l.data) = false := by
    unfold timeSeg
    split_ifs
    · simp only [List.any_cons, List.any_nil, Bool.or_false]
      unfold timeLine
      exact lsw_codeLine_false _ _ _ (by decide)
    · rfl
  have hLink : (linkSeg k.actionUrl k.actionText).any
      (fun l => lstartsWith ("<b>Current:" : String).data l.data) = false := by
    unfold linkSeg
    split_ifs
    · simp only [List.any_cons, List.any_nil, Bool.or_false]
      exact lsw_linkLine_false _ _ _ (by decide)
    · rfl
  have hSrc : (sourceSeg k.source).any
      (fun l => lstartsWith ("<b>Current:" : String).data l.data) = false := by
    unfold sourceSeg
    split_ifs
    · simp only [List.any_cons, List.any_nil, Bool.or_false]
      unfold sourceLine
      exact lsw_codeLine_false _ _ _ (by decide)
    · rfl
  unfold lineAny messageLines
  simp only [List.any_append, List.any_cons, List.any_nil, Bool.or_false,
    hTitle, hSev, hStatus, hEmpty, hDesc, hMon, hCur, hThr, hTime, hLink, hSrc,
    Bool.false_or, Bool.or_false, decide_eq_true_eq]


theorem lineAny_threshold_iff (tl : String → Except Unit String) (k : NormalizedAlert) :
    lineAny "<b>Threshold:" (messageLines tl k) = true ↔ k.threshold ≠ none := by
  have hTitle : lstartsWith ("<b>Threshold:" : String).data
      (titleLine k.status k.alertName).data = false :=
    lsw_titleLine_false _ _ _ (by decide) (by decide) (by decide) (by decide)
  have hSev : lstartsWith ("<b>Threshold:" : String).data
      (severityLine k.severity).data = false :=
    lsw_severityLine_false _ _ (by decide) (by decide) (by decide)
  have hStatus : lstartsWith ("<b>Threshold:" : String).data
      (statusLine k.status).data = false := by
    unfold statusLine
    exact lsw_codeLine_false _ _ _ (by decide)
  have hEmpty : lstartsWith ("<b>Threshold:" : String).data ("" : String).data = false := by
    decide
  have hDesc : (descSeg k.description).any
      (fun l => lstartsWith ("<b>Threshold:" : String).data l.data) = false := by
    unfold descSeg
    split_ifs
    · simp only [List.any_cons, List.any_nil, Bool.or_false, hEmpty, Bool.false_or]
      exact lsw_escapeHtml_lt _ _ (by decide)
    · rfl
  have hMon : (monitorSeg k.metric).any
      (fun l => lstartsWith ("<b>Threshold:" : String).data l.data) = false := by
    unfold monitorSeg
    split_ifs
    · simp only [List.any_cons, List.any_nil, Bool.or_false]
      unfold monitorLine
      exact lsw_codeLine_false _ _ _ (by decide)
    · rfl
  have hCur : (currentSeg k.currentValue).any
      (fun l => lstartsWith ("<b>Threshold:" : String).data l.data) = false := by
    cases k.currentValue with
    | none => rfl
    | some v =>
      simp only [currentSeg, List.any_cons, List.any_nil, Bool.or_false]
      unfold currentLine
      exact lsw_codeLine_false _ _ _ (by decide)
  have hThr : (thresholdSeg k.threshold).any
      (fun l => lstartsWith ("<b>Threshold:" : String).data l.data)
      = decide (k.threshold ≠ none) := by
    cases k.threshold with
    | none => simp [thresholdSeg]
    | some v =>
      simp only [thresholdSeg, List.any_cons, List.any_nil, Bool.or_false]
      unfold thresholdLine
      rw [lsw_codeLine_true _ _ _ (by decide) (by decide)]
      simp
  have hTime : (timeSeg tl k.timestamp).any
      (fun l => lstartsWith ("<b>Threshold:" : String).data l.data) = false := by
    unfold timeSeg
    split_ifs
    · simp only [List.any_cons, List.any_nil, Bool.or_false]
      unfold timeLine
      exact lsw_codeLine_false _ _ _ (by decide)
    · rfl
  have hLink : (linkSeg k.actionUrl k.actionText).any
      (fun l => lstartsWith ("<b>Threshold:" : String).data l.data) = false := by
    unfold linkSeg
    split_ifs
    · simp only [List.any_cons, List.any_nil, Bool.or_false]
      exact lsw_linkLine_false _ _ _ (by decide)
    · rfl
  have hSrc : (sourceSeg k.source).any
      (fun l => lstartsWith ("<b>Threshold:" : String).data l.data) = false := by
    unfold sourceSeg
    split_ifs
    · simp only [List.any_cons, List.any_nil, Bool.or_false]
      unfold sourceLine
      exact lsw_codeLine_false _ _ _ (by decide)
    · rfl
  unfold lineAny messageLines
  simp only [List.any_append, List.any_cons, List.any_nil, Bool.or_false,
    hTitle, hSev, hStatus, hEmpty, hDesc, hMon, hCur, hThr, hTime, hLink, hSrc,
    Bool.false_or, Bool.or_false, decide_eq_true_eq]


theorem lineAny_link_iff (tl : String → Except Unit String) (k : NormalizedAlert) :
    lineAny "\n<a href=\"" (messageLines tl k) = true ↔ k.actionUrl ≠ "" := by
  have hTitle : lstartsWith ("\n<a href=\"" : String).data
      (titleLine k.status k.alertName).data = false :=
    lsw_titleLine_false0 _ _ _ (by decide)
  have hSev : lstartsWith ("\n<a href=\"" : String).data
      (severityLine k.severity).data = false :=
    lsw_severityLine_false _ _ (by decide) (by decide) (by decide)
  have hStatus : lstartsWith ("\n<a href=\"" : String).data
      (statusLine k.status).data = false := by
    unfold statusLine
    exact lsw_codeLine_false _ _ _ (by decide)
  have hEmpty : lstartsWith ("\n<a href=\"" : String).data ("" : String).data = false := by
    decide
  have hDesc : (descSeg k.description).any
      (fun l => lstartsWith ("\n<a href=\"" : String).data l.data) = false := by
    unfold descSeg
    split_ifs
    · simp only [List.any_cons, List.any_nil, Bool.or_false, hEmpty, Bool.false_or]
      exact lsw_escapeHtml_nl _ _ (by decide) (by decide)
    · rfl
  have hMon : (monitorSeg k.metric).any
      (fun l => lstartsWith ("\n<a href=\"" : String).data l.data) = false := by
    unfold monitorSeg
    split_ifs
    · simp only [List.any_cons, List.any_nil, Bool.or_false]
      unfold monitorLine
      exact lsw_codeLine_false _ _ _ (by decide)
    · rfl
  have hCur : (currentSeg k.currentValue).any
      (fun l => lstartsWith ("\n<a href=\"" : String).data l.data) = false := by
    cases k.currentValue with
    | none => rfl
    | some v =>
      simp only [currentSeg, List.any_cons, List.any_nil, Bool.or_false]
      unfold currentLine
      exact lsw_codeLine_false _ _ _ (by decide)
  have hThr : (thresholdSeg k.threshold).any
      (fun l => lstartsWith ("\n<a href=\"" : String).data l.data) = false := by
    cases k.threshold with
    | none => rfl
    | some v =>
      simp only [thresholdSeg, List.any_cons, List.any_nil, Bool.or_false]
      unfold thresholdLine
      exact lsw_codeLine_false _ _ _ (by decide)
  have hTime : (timeSeg tl k.timestamp).any
      (fun l => lstartsWith ("\n<a href=\"" : String).data l.data) = false := by
    unfold timeSeg
    split_ifs
    · simp only [List.any_cons, List.any_nil, Bool.or_false]
      unfold timeLine
      exact lsw_codeLine_false _ _ _ (by decide)
    · rfl
  have hLink : (linkSeg k.actionUrl k.actionText).any
      (fun l => lstartsWith ("\n<a href=\"" : String).data l.data)
      = decide (k.actionUrl ≠ "") := by
    unfold linkSeg
    split_ifs with h
    · simp only [List.any_cons, List.any_nil, Bool.or_false]
      rw [lsw_linkLine_true _ _ _ (by decide) (by decide)]
      simp [h]
    · simp [h]
  have hSrc : (sourceSeg k.source).any
      (fun l => lstartsWith ("\n<a href=\"" : String).data l.data) = false := by
    unfold sourceSeg
    split_ifs
    · simp only [List.any_cons, List.any_nil, Bool.or_false]
      unfold sourceLine
      exact lsw_codeLine_false _ _ _ (by decide)
    · rfl
  unfold lineAny messageLines
  simp only [List.any_append, List.any_cons, List.any_nil, Bool.or_false,
    hTitle, hSev, hStatus, hEmpty, hDesc, hMon, hCur, hThr, hTime, hLink, hSrc,
    Bool.false_or, Bool.or_false, decide_eq_true_eq]


/-! Presence of individual lines. -/

theorem lineAny_true_of_mem (M l : String) (ls : List String) (hm : l ∈ ls)
    (h : lstartsWith M.data l.data = true) : lineAny M ls = true := by
  unfold lineAny
  rw [List.any_eq_true]
  exact ⟨l, hm, h⟩

theorem statusLine_mem (tl : String → Except Unit String) (k : NormalizedAlert) :
    statusLine k.status ∈ messageLines tl k := by
  simp [messageLines]

theorem severityLine_mem (tl : String → Except Unit String) (k : NormalizedAlert) :
    severityLine k.severity ∈ messageLines tl k := by
  simp [messageLines]

theorem sourceLine_mem (tl : String → Except Unit String) (k : NormalizedAlert)
    (h : k.source ≠ "") : sourceLine k.source ∈ messageLines tl k := by
  simp [messageLines, sourceSeg, h]

theorem timeLine_mem (tl : String → Except Unit String) (k : NormalizedAlert)
    (h : k.timestamp ≠ "") : timeLine tl k.timestamp ∈ messageLines tl k := by
  simp [messageLines, timeSeg, h]

theorem currentLine_mem (tl : String → Except Unit String) (k : NormalizedAlert)
    (v : JSPrim) (h : k.currentValue = some v) : currentLine v ∈ messageLines tl k := by
  simp [messageLines, currentSeg, h]

theorem thresholdLine_mem (tl : String → Except Unit String) (k : NormalizedAlert)
    (v : JSPrim) (h : k.threshold = some v) : thresholdLine v ∈ messageLines tl k := by
  simp [messageLines, thresholdSeg, h]

theorem lsw_statusLine_self (st : String) :
    lstartsWith ("<b>Status:" : String).data (statusLine st).data = true := by
  unfold statusLine
  exact lsw_codeLine_true _ _ _ (by decide) (by decide)

theorem lsw_sourceLine_self (s : String) :
    lstartsWith ("<b>Source:" : String).data (sourceLine s).data = true := by
  unfold sourceLine
  exact lsw_codeLine_true _ _ _ (by decide) (by decide)

theorem lsw_timeLine_self (tl : String → Except Unit String) (ts : String) :
    lstartsWith ("<b>Time:" : String).data (timeLine tl ts).data = true := by
  unfold timeLine
  exact lsw_codeLine_true _ _ _ (by decide) (by decide)

/-! Algebra of `joinLines`, `sepJoin`, `concatStrs`. -/

theorem joinLines_cons : ∀ (xs : List String) (x : String),
    joinLines (x :: xs) = x ++ sepJoin xs := by
  intro xs
  induction xs with
  | nil =>
    intro x
    rw [show sepJoin [] = "" from rfl, append_empty_str]
    rfl
  | cons y ys ih =>
    intro x
    rw [show joinLines (x :: y :: ys) = x ++ "\n" ++ joinLines (y :: ys) from rfl, ih y]
    apply sdata_ext
    simp [sdata_append, sepJoin, List.append_assoc]

theorem sepJoin_append (a b : List String) :
    sepJoin (a ++ b) = sepJoin a ++ sepJoin b := by
  induction a with
  | nil =>
    rw [show sepJoin [] = "" from rfl, empty_append_str]
    rfl
  | cons x xs ih =>
    rw [show (x :: xs) ++ b = x :: (xs ++ b) from rfl,
      show sepJoin (x :: (xs ++ b)) = ("\n" ++ x) ++ sepJoin (xs ++ b) from rfl,
      show sepJoin (x :: xs) = ("\n" ++ x) ++ sepJoin xs from rfl, ih]
    apply sdata_ext
    simp [sdata_append, List.append_assoc]

theorem concatStrs_append (a b : List String) :
    concatStrs (a ++ b) = concatStrs a ++ concatStrs b := by
  induction a with
  | nil =>
    rw [show concatStrs [] = "" from rfl, empty_append_str]
    rfl
  | cons x xs ih =>
    rw [show (x :: xs) ++ b = x :: (xs ++ b) from rfl,
      show concatStrs (x :: (xs ++ b)) = x ++ concatStrs (xs ++ b) from rfl,
      show concatStrs (x :: xs) = x ++ concatStrs xs from rfl, ih]
    apply sdata_ext
    simp [sdata_append, List.append_assoc]

theorem chunksToString_append (a b : List Chunk) :
    chunksToString (a ++ b) = chunksToString a ++ chunksToString b := by
  unfold chunksToString
  rw [List.map_append, concatStrs_append]

/-! Each chunk segment renders to its line segment. -/

theorem title_seg_eq (st name : String) :
    chunksToString (titleChunks st name) = titleLine st name := by
  apply sdata_ext
  simp [chunksToString, concatStrs, titleChunks, Chunk.str, titleLine,
    sdata_append, sdata_empty, List.append_assoc]

theorem desc_seg_eq (d : String) :
    chunksToString (descChunks d) = sepJoin (descSeg d) := by
  by_cases h : d = ""
  · simp [descChunks, descSeg, h, chunksToString, concatStrs, sepJoin]
  · apply sdata_ext
    simp [descChunks, descSeg, h, chunksToString, concatStrs, Chunk.str, sepJoin,
      sdata_append, sdata_empty, List.append_assoc]

theorem blank_seg_eq : chunksToString blankChunks = sepJoin [""] := by
  decide

theorem severity_seg_eq (sev : String) :
    chunksToString (severityChunks sev) = sepJoin [severityLine sev] := by
  apply sdata_ext
  simp [chunksToString, concatStrs, severityChunks, Chunk.str, severityLine, sepJoin,
    sdata_append, sdata_empty, List.append_assoc]

theorem status_seg_eq (st : String) :
    chunksToString (statusChunks st) = sepJoin [statusLine st] := by
  apply sdata_ext
  simp [chunksToString, concatStrs, statusChunks, Chunk.str, statusLine, sepJoin,
    sdata_append, sdata_empty, List.append_assoc]

theorem source_seg_eq (s : String) :
    chunksToString (sourceChunks s) = sepJoin (sourceSeg s) := by
  by_cases h : s = ""
  · simp [sourceChunks, sourceSeg, h, chunksToString, concatStrs, sepJoin]
  · apply sdata_ext
    simp [sourceChunks, sourceSeg, h, chunksToString, concatStrs, Chunk.str, sourceLine,
      sepJoin, sdata_append, sdata_empty, List.append_assoc]

theorem monitor_seg_eq (m : String) :
    chunksToString (monitorChunks m) = sepJoin (monitorSeg m) := by
  by_cases h : m = ""
  · simp [monitorChunks, monitorSeg, h, chunksToString, concatStrs, sepJoin]
  · apply sdata_ext
    simp [monitorChunks, monitorSeg, h, chunksToString, concatStrs, Chunk.str, monitorLine,
      sepJoin, sdata_append, sdata_empty, List.append_assoc]

theorem current_seg_eq (v : Option JSPrim) :
    chunksToString (currentChunks v) = sepJoin (currentSeg v) := by
  cases v with
  | none => rfl
  | some w =>
    apply sdata_ext
    simp [currentChunks, currentSeg, chunksToString, concatStrs, Chunk.str, currentLine,
      sepJoin, sdata_append, sdata_empty, List.append_assoc]

theorem threshold_seg_eq (v : Option JSPrim) :
    chunksToString (thresholdChunks v) = sepJoin (thresholdSeg v) := by
  cases v with
  | none => rfl
  | some w =>
    apply sdata_ext
    simp [thresholdChunks, thresholdSeg, chunksToString, concatStrs, Chunk.str,
      thresholdLine, sepJoin, sdata_append, sdata_empty, List.append_assoc]

theorem time_seg_eq (tl : String → Except Unit String) (ts : String) :
    chunksToString (timeChunks tl ts) = sepJoin (timeSeg tl ts) := by
  by_cases h : ts = ""
  · simp [timeChunks, timeSeg, h, chunksToString, concatStrs, sepJoin]
  · apply sdata_ext
    simp [timeChunks, timeSeg, h, chunksToString, concatStrs, Chunk.str, timeLine,
      sepJoin, sdata_append, sdata_empty, List.append_assoc]

theorem link_seg_eq (url text : String) :
    chunksToString (linkChunks url text) = sepJoin (linkSeg url text) := by
  by_cases h : url = ""
  · simp [linkChunks, linkSeg, h, chunksToString, concatStrs, sepJoin]
  · apply sdata_ext
    simp [linkChunks, linkSeg, h, chunksToString, concatStrs, Chunk.str, linkLine,
      sepJoin, sdata_append, sdata_empty, List.append_assoc]

/-- The rendered message is exactly the concatenation of its chunks. -/
theorem build_eq_chunks (tl : String → Except Unit String) (k : NormalizedAlert) :
    buildTelegramMessage tl k = chunksToString (messageChunks tl k) := by
  unfold buildTelegramMessage messageChunks
  rw [show messageLines tl k
      = titleLine k.status k.alertName
        :: (descSeg k.description ++ ([""] ++ ([severityLine k.severity]
          ++ ([statusLine k.status] ++ (sourceSeg k.source ++ (monitorSeg k.metric
          ++ (currentSeg k.currentValue ++ (thresholdSeg k.threshold
          ++ (timeSeg tl k.timestamp ++ linkSeg k.actionUrl k.actionText)))))))))
    from by simp [messageLines]]
  rw [joinLines_cons]
  simp only [sepJoin_append, chunksToString_append]
  rw [title_seg_eq, desc_seg_eq, blank_seg_eq, severity_seg_eq, status_seg_eq,
    source_seg_eq, monitor_seg_eq, current_seg_eq, threshold_seg_eq, time_seg_eq,
    link_seg_eq]
  apply sdata_ext
  simp [sdata_append, List.append_assoc]

/-! Chunk classification. -/

theorem goodChunk_title (st name : String) : ∀ c ∈ titleChunks st name, goodChunk c := by
  intro c hc
  simp only [titleChunks, List.mem_cons, List.not_mem_nil, or_false] at hc
  rcases hc with rfl | rfl | rfl
  · exact Or.inr ⟨rfl, by decide⟩
  · exact Or.inl ⟨_, rfl⟩
  · exact Or.inr ⟨rfl, by decide⟩

theorem goodChunk_desc (d : String) : ∀ c ∈ descChunks d, goodChunk c := by
  intro c hc
  unfold descChunks at hc
  split_ifs at hc
  · simp only [List.mem_cons, List.not_mem_nil, or_false] at hc
    rcases hc with rfl | rfl | rfl | rfl
    · exact Or.inr ⟨rfl, by decide⟩
    · exact Or.inr ⟨rfl, by decide⟩
    · exact Or.inr ⟨rfl, by decide⟩
    · exact Or.inl ⟨_, rfl⟩
  · simp at hc

theorem goodChunk_blank : ∀ c ∈ blankChunks, goodChunk c := by
  intro c hc
  simp only [blankChunks, List.mem_cons, List.not_mem_nil, or_false] at hc
  rcases hc with rfl | rfl
  · exact Or.inr ⟨rfl, by decide⟩
  · exact Or.inr ⟨rfl, by decide⟩

theorem goodChunk_severity (sev : String) : ∀ c ∈ severityChunks sev, goodChunk c := by
  intro c hc
  simp only [severityChunks, List.mem_cons, List.not_mem_nil, or_false] at hc
  rcases hc with rfl | rfl | rfl | rfl | rfl
  · exact Or.inr ⟨rfl, by decide⟩
  · refine Or.inr ⟨rfl, ?_⟩
    unfold severityEmoji
    split_ifs
    · decide
    · decide
    · decide
  · exact Or.inr ⟨rfl, by decide⟩
  · exact Or.inl ⟨_, rfl⟩
  · exact Or.inr ⟨rfl, by decide⟩

theorem goodChunk_status (st : String) : ∀ c ∈ statusChunks st, goodChunk c := by
  intro c hc
  simp only [statusChunks, List.mem_cons, List.not_mem_nil, or_false] at hc
  rcases hc with rfl | rfl | rfl | rfl
  · exact Or.inr ⟨rfl, by decide⟩
  · exact Or.inr ⟨rfl, by decide⟩
  · exact Or.inl ⟨_, rfl⟩
  · exact Or.inr ⟨rfl, by decide⟩

theorem goodChunk_source (s : String) : ∀ c ∈ sourceChunks s, goodChunk c := by
  intro c hc
  unfold sourceChunks at hc
  split_ifs at hc
  · simp only [List.mem_cons, List.not_mem_nil, or_false] at hc
    rcases hc with rfl | rfl | rfl | rfl
    · exact Or.inr ⟨rfl, by decide⟩
    · exact Or.inr ⟨rfl, by decide⟩
    · exact Or.inl ⟨_, rfl⟩
    · exact Or.inr ⟨rfl, by decide⟩
  · simp at hc

theorem goodChunk_monitor (m : String) : ∀ c ∈ monitorChunks m, goodChunk c := by
  intro c hc
  unfold monitorChunks at hc
  split_ifs at hc
  · simp only [List.mem_cons, List.not_mem_nil, or_false] at hc
    rcases hc with rfl | rfl | rfl | rfl
    · exact Or.inr ⟨rfl, by decide⟩
    · exact Or.inr ⟨rfl, by decide⟩
    · exact Or.inl ⟨_, rfl⟩
    · exact Or.inr ⟨rfl, by decide⟩
  · simp at hc

theorem goodChunk_current (v : Option JSPrim) : ∀ c ∈ currentChunks v, goodChunk c := by
  intro c hc
  cases v with
  | none => simp [currentChunks] at hc
  | some w =>
    simp only [currentChunks, List.mem_cons, List.not_mem_nil, or_false] at hc
    rcases hc with rfl | rfl | rfl | rfl
    · exact Or.inr ⟨rfl, by decide⟩
    · exact Or.inr ⟨rfl, by decide⟩
    · exact Or.inl ⟨_, rfl⟩
    · exact Or.inr ⟨rfl, by decide⟩

theorem goodChunk_threshold (v : Option JSPrim) : ∀ c ∈ thresholdChunks v, goodChunk c := by
  intro c hc
  cases v with
  | none => simp [thresholdChunks] at hc
  | some w =>
    simp only [thresholdChunks, List.mem_cons, List.not_mem_nil, or_false] at hc
    rcases hc with rfl | rfl | rfl | rfl
    · exact Or.inr ⟨rfl, by decide⟩
    · exact Or.inr ⟨rfl, by decide⟩
    · exact Or.inl ⟨_, rfl⟩
    · exact Or.inr ⟨rfl, by decide⟩

theorem goodChunk_time (tl : String → Except Unit String) (ts : String) :
    ∀ c ∈ timeChunks tl ts, goodChunk c := by
  intro c hc
  unfold timeChunks at hc
  split_ifs at hc
  · simp only [List.mem_cons, List.not_mem_nil, or_false] at hc
    rcases hc with rfl | rfl | rfl | rfl
    · exact Or.inr ⟨rfl, by decide⟩
    · exact Or.inr ⟨rfl, by decide⟩
    · exact Or.inl ⟨_, rfl⟩
    · exact Or.inr ⟨rfl, by decide⟩
  · simp at hc

theorem goodChunk_link (url text : String) : ∀ c ∈ linkChunks url text, goodChunk c := by
  intro c hc
  unfold linkChunks at hc
  split_ifs at hc
  · simp only [List.mem_cons, List.not_mem_nil, or_false] at hc
    rcases hc with rfl | rfl | rfl | rfl | rfl | rfl
    · exact Or.inr ⟨rfl, by decide⟩
    · exact Or.inr ⟨rfl, by decide⟩
    · exact Or.inl ⟨_, rfl⟩
    · exact Or.inr ⟨rfl, by decide⟩
    · exact Or.inl ⟨_, rfl⟩
    · exact Or.inr ⟨rfl, by decide⟩
  · simp at hc

theorem goodChunk_msg (tl : String → Except Unit String) (k : NormalizedAlert) :
    ∀ c ∈ messageChunks tl k, goodChunk c := by
  intro c hc
  simp only [messageChunks, List.mem_append] at hc
  rcases hc with ((((((((((h | h) | h) | h) | h) | h) | h) | h) | h) | h) | h)
  · exact goodChunk_title _ _ _ h
  · exact goodChunk_desc _ _ h
  · exact goodChunk_blank _ h
  · exact goodChunk_severity _ _ h
  · exact goodChunk_status _ _ h
  · exact goodChunk_source _ _ h
  · exact goodChunk_monitor _ _ h
  · exact goodChunk_current _ _ h
  · exact goodChunk_threshold _ _ h
  · exact goodChunk_time _ _ _ h
  · exact goodChunk_link _ _ _ h

/-! Non-emptiness of defaulted fields. -/

theorem orDefault_ne_empty (x : Option String) (d : String) (hd : d ≠ "") :
    orDefault x d ≠ "" := by
  cases x with
  | none => exact hd
  | some s =>
    simp only [orDefault]
    split_ifs with h
    · exact hd
    · exact h

theorem pickAction_text_ne (p : KenerPayload) : (pickAction p).text ≠ "" := by
  unfold pickAction
  rcases hp : p.actions with _ | (_ | ⟨a, rest⟩)
  · simp
  · simp
  · exact orDefault_ne_empty a.text "Open" (by decide)

/-! The claims. -/

/-- C1: every free-text value interpolated into the rendered message (alert
name inside the title, description, severity, status, source, metric,
stringified current/threshold values, formatted time, link text and link
URL) is escaped by `escapeHtml` — `&`→`&amp;`, then `<`→`&lt;`, then
`>`→`&gt;`, in that order — after which it satisfies `SafeRun`: it contains
no raw `<` and no raw `>`, and every `&` opens one of the three entities.
The rendered message is exactly the concatenation of `messageChunks`, whose
holes are the `escapeHtml` images of those values and whose remaining pieces
all come from the formatter's fixed markup inventory. -/
theorem c1_escaping (tl : String → Except Unit String) (k : NormalizedAlert) :
    buildTelegramMessage tl k = chunksToString (messageChunks tl k)
    ∧ (∀ c ∈ messageChunks tl k, c.isHole = true →
        SafeRun (Chunk.str c).data ∧ '<' ∉ (Chunk.str c).data ∧ '>' ∉ (Chunk.str c).data)
    ∧ (∀ c ∈ messageChunks tl k, c.isHole = false → Chunk.str c ∈ fixedMarkupStrings) := by
  refine ⟨build_eq_chunks tl k, ?_, ?_⟩
  · intro c hc hhole
    rcases goodChunk_msg tl k c hc with ⟨s, rfl⟩ | ⟨hfixed, _⟩
    · exact ⟨safeRun_escapeHtml s, escL_no_lt s.data, escL_no_gt s.data⟩
    · simp [hfixed] at hhole
  · intro c hc hfix
    rcases goodChunk_msg tl k c hc with ⟨s, rfl⟩ | ⟨_, hmem⟩
    · simp [Chunk.isHole] at hfix
    · exact hmem

/-- Witness for C1 at a concrete alert whose description is raw markup. -/
theorem c1_escaping_witness :
    buildTelegramMessage tlFix alertScript = chunksToString (messageChunks tlFix alertScript)
    ∧ SafeRun (Chunk.str (Chunk.hole (escapeHtml "<script>&"))).data := by
  refine ⟨(c1_escaping tlFix alertScript).1, ?_⟩
  exact ((c1_escaping tlFix alertScript).2.1 (Chunk.hole (escapeHtml "<script>&"))
    (by decide) rfl).1

/-- C2: `authorize` accepts everything when the configured secret is empty;
with a non-empty secret it rejects on a UTF-8 byte-length mismatch, accepts
exactly byte-for-byte equal inputs when lengths match, never propagates the
`crypto.timingSafeEqual` exception, and decides the two concrete examples
as documented. -/
theorem c2_authorize (p s : String) :
    (s = "" → authorize p s = .ok true)
    ∧ (s ≠ "" → (utf8Bytes p).length ≠ (utf8Bytes s).length →
        authorize p s = .ok false)
    ∧ (s ≠ "" → (utf8Bytes p).length = (utf8Bytes s).length →
        (authorize p s = .ok true ↔ utf8Bytes p = utf8Bytes s))
    ∧ (∃ b, authorize p s = .ok b)
    ∧ authorize "wrong" "secret" = .ok false
    ∧ authorize "secret" "secret" = .ok true := by
  refine ⟨?_, ?_, ?_, ?_, rfl, rfl⟩
  · intro h
    simp [authorize, h]
  · intro hs hl
    simp [authorize, hs, timingSafeEq, hl]
  · intro hs hl
    simp [authorize, hs, timingSafeEq, hl, cryptoTimingSafeEqual, decide_eq_true_eq]
  · by_cases hs : s = ""
    · exact ⟨true, by simp [authorize, hs]⟩
    · by_cases hl : (utf8Bytes p).length = (utf8Bytes s).length
      · exact ⟨decide (utf8Bytes p = utf8Bytes s),
          by simp [authorize, hs, timingSafeEq, hl, cryptoTimingSafeEqual]⟩
      · exact ⟨false, by simp [authorize, hs, timingSafeEq, hl]⟩

/-- Witness for C2 at the documented concrete inputs. -/
theorem c2_authorize_witness :
    authorize "tok" "" = .ok true
    ∧ authorize "wrong" "secret" = .ok false
    ∧ (authorize "secret" "secret" = .ok true ↔ utf8Bytes "secret" = utf8Bytes "secret") :=
  ⟨(c2_authorize "tok" "").1 rfl,
   (c2_authorize "wrong" "secret").2.2.2.2.1,
   (c2_authorize "secret" "secret").2.2.1 (by decide) (by decide)⟩

/-- C3: `normalize` is total and fully defaulted: every absent field takes
its documented default (id "", alertName "Alert", severity "unknown",
status "UNKNOWN", source "Kener", timestamp the current clock value,
description "", metric "", currentValue/threshold null, actionText "Open",
actionUrl ""), every string field is a string and current/threshold are
value-or-null by type, and the empty inbound object maps to exactly the
default record. -/
theorem c3_normalize_total (now : String) (p : KenerPayload) :
    ((p.id = none → (normalize now p).id = "")
    ∧ (p.alert_name = none → (normalize now p).alertName = "Alert")
    ∧ (p.severity = none → (normalize now p).severity = "unknown")
    ∧ (p.status = none → (normalize now p).status = "UNKNOWN")
    ∧ (p.source = none → (normalize now p).source = "Kener")
    ∧ (p.timestamp = none → (normalize now p).timestamp = now)
    ∧ (p.description = none → (normalize now p).description = "")
    ∧ (p.details = none → (normalize now p).metric = ""
        ∧ (normalize now p).currentValue = none ∧ (normalize now p).threshold = none)
    ∧ (p.actions = none → (normalize now p).actionText = "Open"
        ∧ (normalize now p).actionUrl = ""))
    ∧ normalize now emptyKenerPayload =
        { id := "", alertName := "Alert", severity := "unknown", status := "UNKNOWN",
          source := "Kener", timestamp := now, description := "", metric := "",
          currentValue := none, threshold := none, actionText := "Open", actionUrl := "" } := by
  constructor
  · refine ⟨?_, ?_, ?_, ?_, ?_, ?_, ?_, ?_, ?_⟩ <;> intro h <;>
      simp [normalize, orDefault, pickAction, h]
  · rfl

/-- Witness for C3 on the empty inbound event at a concrete clock value. -/
theorem c3_normalize_total_witness :
    (normalize "2025-06-01T12:00:00.000Z" emptyKenerPayload).alertName = "Alert"
    ∧ (normalize "2025-06-01T12:00:00.000Z" emptyKenerPayload).timestamp
        = "2025-06-01T12:00:00.000Z" :=
  ⟨(c3_normalize_total "2025-06-01T12:00:00.000Z" emptyKenerPayload).1.2.1 rfl,
   (c3_normalize_total "2025-06-01T12:00:00.000Z" emptyKenerPayload).1.2.2.2.2.2.1 rfl⟩

/-- C4: the POST / handler answers 401 `invalid token` with zero outbound
sends when a secret is configured and the trimmed presented token fails the
comparison; otherwise it answers 200 `ok:true` and dispatches exactly one
outbound send, and the HTTP response (status and body) is independent of
the network's behaviour — the dispatch outcome cannot affect it. -/
theorem c4_handler (cfg : AppConfig) (tl : String → Except Unit String) (now : String)
    (net : TelegramRequest → TelegramResponse) (token : Option String)
    (payload : KenerPayload) :
    (cfg.kenerWebhookSecret ≠ "" →
      authorize (jsTrim (orDefault token "")) cfg.kenerWebhookSecret = .ok false →
      handlePost cfg tl now net token payload =
        .ok { status := 401, body := .invalidToken, sent := [], logs := [] })
    ∧ (authorize (jsTrim (orDefault token "")) cfg.kenerWebhookSecret = .ok true →
      ∃ logs, handlePost cfg tl now net token payload =
        .ok { status := 200, body := .okTrue,
              sent := [mkTelegramRequest
                (buildTelegramMessage tl (normalize now payload)) cfg],
              logs := logs })
    ∧ (∀ net1 net2 : TelegramRequest → TelegramResponse,
        (handlePost cfg tl now net1 token payload).map (fun r => (r.status, r.body))
          = (handlePost cfg tl now net2 token payload).map (fun r => (r.status, r.body))) := by
  refine ⟨?_, ?_, ?_⟩
  · intro _ hauth
    unfold handlePost
    rw [hauth]
  · intro hauth
    unfold handlePost
    rw [hauth]
    cases hsend : sendTelegram net (buildTelegramMessage tl (normalize now payload)) cfg with
    | ok u => exact ⟨[], rfl⟩
    | error e => exact ⟨["[relay] telegram error: " ++ e], rfl⟩
  · intro net1 net2
    unfold handlePost
    cases authorize (jsTrim (orDefault token "")) cfg.kenerWebhookSecret with
    | error e => rfl
    | ok b =>
      cases b with
      | false => rfl
      | true =>
        cases sendTelegram net1 (buildTelegramMessage tl (normalize now payload)) cfg with
        | ok u =>
          cases sendTelegram net2 (buildTelegramMessage tl (normalize now payload)) cfg with
          | ok v => rfl
          | error e => rfl
        | error e1 =>
          cases sendTelegram net2 (buildTelegramMessage tl (normalize now payload)) cfg with
          | ok v => rfl
          | error e => rfl

/-- Witness for C4: wrong and right tokens against a configured secret. -/
theorem c4_handler_witness :
    handlePost cfgW tlFix "2025-01-01T00:00:00.000Z" netOkW (some "wrong") emptyKenerPayload
      = .ok { status := 401, body := .invalidToken, sent := [], logs := [] }
    ∧ ∃ logs,
      handlePost cfgW tlFix "2025-01-01T00:00:00.000Z" netOkW (some "secret") emptyKenerPayload
        = .ok { status := 200, body := .okTrue,
                sent := [mkTelegramRequest
                  (buildTelegramMessage tlFix
                    (normalize "2025-01-01T00:00:00.000Z" emptyKenerPayload)) cfgW],
                logs := logs } :=
  ⟨(c4_handler cfgW tlFix "2025-01-01T00:00:00.000Z" netOkW (some "wrong")
      emptyKenerPayload).1 (by decide) rfl,
   (c4_handler cfgW tlFix "2025-01-01T00:00:00.000Z" netOkW (some "secret")
      emptyKenerPayload).2.1 rfl⟩

/-- C5 counterexample: for the empty timestamp string (a string the claim's
unrestricted quantification covers) the formatter emits no Time line at
all, because of the `if (k.timestamp)` guard. -/
theorem c5_counterexample :
    alertBare.timestamp = "" ∧ lineAny "<b>Time:" (messageLines tlErr alertBare) = false := by
  constructor
  · rfl
  · decide

/-- C5 (amended): for every NON-EMPTY timestamp string the formatter emits
a Time line whose content is the escaped `formatTime` output; `formatTime`
returns the host rendering with a " UTC" suffix when that rendering
succeeds and the raw timestamp unchanged when it fails, and it never fails
itself (it is total). -/
theorem c5_time_amended (tl : String → Except Unit String) (k : NormalizedAlert) :
    (k.timestamp ≠ "" →
      timeLine tl k.timestamp ∈ messageLines tl k
      ∧ lineAny "<b>Time:" (messageLines tl k) = true)
    ∧ (∀ iso s, tl iso = .ok s → formatTime tl iso = s ++ " UTC")
    ∧ (∀ iso e, tl iso = .error e → formatTime tl iso = iso) := by
  refine ⟨?_, ?_, ?_⟩
  · intro h
    exact ⟨timeLine_mem tl k h,
      lineAny_true_of_mem _ _ _ (timeLine_mem tl k h) (lsw_timeLine_self tl k.timestamp)⟩
  · intro iso s h
    simp [formatTime, h]
  · intro iso e h
    simp [formatTime, h]

/-- Witness for C5 (amended): a concrete renderer that succeeds on the
alert's timestamp and fails on a marked input. -/
theorem c5_time_amended_witness :
    timeLine tlFix alertTs.timestamp ∈ messageLines tlFix alertTs
    ∧ formatTime tlFix "2025-01-01T00:00:00.000Z" = "1 Jan 2025, 00:00" ++ " UTC"
    ∧ formatTime tlFix "bad-timestamp" = "bad-timestamp" :=
  ⟨((c5_time_amended tlFix alertTs).1 (by decide)).1,
   (c5_time_amended tlFix alertTs).2.1 "2025-01-01T00:00:00.000Z" "1 Jan 2025, 00:00" rfl,
   (c5_time_amended tlFix alertTs).2.2 "bad-timestamp" () rfl⟩

/-- C6 counterexample: `normalize` reads the clock when the inbound
timestamp is absent, so two evaluations on the same event at different
moments return different records. -/
theorem c6_counterexample :
    normalize "2025-01-01T00:00:00.000Z" emptyKenerPayload
      ≠ normalize "2025-01-02T00:00:00.000Z" emptyKenerPayload := by
  decide

/-- C6 (amended): `normalize` is deterministic in the event and the clock
reading, and whenever the event carries a non-empty timestamp its output
does not depend on the moment of evaluation. -/
theorem c6_clock_determinism (p : KenerPayload) (now1 now2 : String) :
    (∃ t, p.timestamp = some t ∧ t ≠ "") → normalize now1 p = normalize now2 p := by
  rintro ⟨t, ht, hne⟩
  unfold normalize
  simp [orDefault, ht, hne]

/-- Witness for C6 (amended) on an event with a concrete timestamp. -/
theorem c6_clock_determinism_witness :
    normalize "2025-01-01T00:00:00.000Z" payloadTs
      = normalize "2025-01-02T00:00:00.000Z" payloadTs :=
  c6_clock_determinism payloadTs "2025-01-01T00:00:00.000Z" "2025-01-02T00:00:00.000Z"
    ⟨"2024-05-05T00:00:00.000Z", rfl, by decide⟩

theorem body_null_str (n : Nat) :
    "Telegram sendMessage failed: HTTP " ++ toString n ++ " body=" ++ "null"
      = "Telegram sendMessage failed: HTTP " ++ toString n ++ " body=null" :=
  sdata_ext (by simp [sdata_append])

/-- C7: dispatch succeeds exactly when the transport flag is success AND
the body decoded with a truthy `ok`; otherwise it fails with the error
carrying the HTTP status and the body's rendering, with `null` standing in
for an undecodable body. -/
theorem c7_dispatch (net : TelegramRequest → TelegramResponse) (text : String)
    (cfg : AppConfig) :
    (sendTelegram net text cfg = .ok () ↔
      ((net (mkTelegramRequest text cfg)).ok = true
       ∧ ∃ d, (net (mkTelegramRequest text cfg)).body = some d ∧ d.ok = true))
    ∧ (∀ d, (net (mkTelegramRequest text cfg)).body = some d →
        ((net (mkTelegramRequest text cfg)).ok = false ∨ d.ok = false) →
        sendTelegram net text cfg = .error
          ("Telegram sendMessage failed: HTTP "
            ++ toString (net (mkTelegramRequest text cfg)).status ++ " body=" ++ d.raw))
    ∧ ((net (mkTelegramRequest text cfg)).body = none →
        sendTelegram net text cfg = .error
          ("Telegram sendMessage failed: HTTP "
            ++ toString (net (mkTelegramRequest text cfg)).status ++ " body=null")) := by
  unfold sendTelegram handleTelegramResponse
  generalize net (mkTelegramRequest text cfg) = r
  rcases r with ⟨rok, rstatus, rbody⟩
  cases rok <;> rcases rbody with _ | ⟨dok, draw⟩
  · refine ⟨by simp, ?_, by simp [body_null_str]⟩
    intro d hd
    simp at hd
  · cases dok <;> refine ⟨by simp, ?_, by simp⟩
    · intro d hd hbad
      simp at hd
      subst hd
      rfl
    · intro d hd hbad
      simp at hd
      subst hd
      rfl
  · refine ⟨by simp, ?_, by simp [body_null_str]⟩
    intro d hd
    simp at hd
  · cases dok
    · refine ⟨by simp, ?_, by simp⟩
      intro d hd hbad
      simp at hd
      subst hd
      rfl
    · refine ⟨by simp, ?_, by simp⟩
      intro d hd hbad
      simp at hd
      subst hd
      rcases hbad with hbad | hbad <;> simp at hbad

/-- Witness for C7 on three concrete network behaviours. -/
theorem c7_dispatch_witness :
    sendTelegram netOkW "hello" cfgW = .ok ()
    ∧ sendTelegram netNackW "hello" cfgW
        = .error "Telegram sendMessage failed: HTTP 200 body=nack"
    ∧ sendTelegram netDownW "hello" cfgW
        = .error "Telegram sendMessage failed: HTTP 502 body=null" := by
  refine ⟨(c7_dispatch netOkW "hello" cfgW).1.mpr ⟨rfl, ⟨{ ok := true, raw := "ack" }, rfl, rfl⟩⟩,
    ?_, ?_⟩
  · have h := (c7_dispatch netNackW "hello" cfgW).2.1 { ok := false, raw := "nack" } rfl
      (Or.inr rfl)
    exact h
  · have h := (c7_dispatch netDownW "hello" cfgW).2.2 rfl
    exact h

/-- C8: each conditional line — Source, Monitor, Current, Threshold, and
the trailing hyperlink line — appears among the emitted lines exactly when
the corresponding normalized value is non-empty (source, metric, actionUrl)
or non-null (currentValue, threshold); the value lines carry the
stringified stored value. -/
theorem c8_conditional_lines (tl : String → Except Unit String) (k : NormalizedAlert) :
    (lineAny "<b>Source:" (messageLines tl k) = true ↔ k.source ≠ "")
    ∧ (lineAny "<b>Monitor:" (messageLines tl k) = true ↔ k.metric ≠ "")
    ∧ (lineAny "<b>Current:" (messageLines tl k) = true ↔ k.currentValue ≠ none)
    ∧ (lineAny "<b>Threshold:" (messageLines tl k) = true ↔ k.threshold ≠ none)
    ∧ (lineAny "\n<a href=\"" (messageLines tl k) = true ↔ k.actionUrl ≠ "")
    ∧ (∀ v, k.currentValue = some v → currentLine v ∈ messageLines tl k)
    ∧ (∀ v, k.threshold = some v → thresholdLine v ∈ messageLines tl k) :=
  ⟨lineAny_source_iff tl k, lineAny_monitor_iff tl k, lineAny_current_iff tl k,
   lineAny_threshold_iff tl k, lineAny_link_iff tl k,
   fun v h => currentLine_mem tl k v h, fun v h => thresholdLine_mem tl k v h⟩

/-- Witness for C8: the all-empty alert renders none of the conditional
lines, and a stored current value puts its line in the message. -/
theorem c8_conditional_lines_witness :
    lineAny "<b>Source:" (messageLines tlErr alertBare) = false
    ∧ lineAny "\n<a href=\"" (messageLines tlErr alertBare) = false
    ∧ currentLine (JSPrim.num 5) ∈ messageLines tlErr alertCur := by
  have h := c8_conditional_lines tlErr alertBare
  refine ⟨?_, ?_, (c8_conditional_lines tlErr alertCur).2.2.2.2.2.1 (JSPrim.num 5) rfl⟩
  · cases heq : lineAny "<b>Source:" (messageLines tlErr alertBare) with
    | false => exact heq
    | true => exact absurd (h.1.mp heq) (by decide)
  · cases heq : lineAny "\n<a href=\"" (messageLines tlErr alertBare) with
    | false => exact heq
    | true => exact absurd (h.2.2.2.2.1.mp heq) (by decide)

/-- C9: configuration loading returns an `AppConfig` exactly when the port
(defaulted to "3000", trimmed) parses to a positive finite number and the
bot credential and chat identifier are non-blank after trimming; in every
other case it fails with an error.  The shared secret is passed through
trimmed and never blocks startup. -/
theorem c9_loadConfig (toNumber : String → JSNumber) (env : EnvVars) :
    ((∃ cfg, loadConfig toNumber env = .ok cfg) ↔
      ((toNumber (jsTrim (orDefault env.PORT "3000"))).isFinitePos = true
       ∧ jsTrim (orDefault env.TELEGRAM_BOT_TOKEN "") ≠ ""
       ∧ jsTrim (orDefault env.TELEGRAM_CHAT_ID "") ≠ ""))
    ∧ (∀ cfg, loadConfig toNumber env = .ok cfg →
        cfg.kenerWebhookSecret = jsTrim (orDefault env.KENER_WEBHOOK_SECRET ""))
    ∧ (¬((toNumber (jsTrim (orDefault env.PORT "3000"))).isFinitePos = true
       ∧ jsTrim (orDefault env.TELEGRAM_BOT_TOKEN "") ≠ ""
       ∧ jsTrim (orDefault env.TELEGRAM_CHAT_ID "") ≠ "") →
        ∃ msg, loadConfig toNumber env = .error msg) := by
  unfold loadConfig
  cases hn : toNumber (jsTrim (orDefault env.PORT "3000")) with
  | nan => exact ⟨by simp [JSNumber.isFinitePos], by simp, fun _ => ⟨_, rfl⟩⟩
  | posInf => exact ⟨by simp [JSNumber.isFinitePos], by simp, fun _ => ⟨_, rfl⟩⟩
  | negInf => exact ⟨by simp [JSNumber.isFinitePos], by simp, fun _ => ⟨_, rfl⟩⟩
  | finite q =>
    by_cases hq : q ≤ 0
    · have hnp : ¬(0 < q) := not_lt.mpr hq
      exact ⟨by simp [hq, JSNumber.isFinitePos, hnp], by simp [hq], fun _ => by simp [hq]⟩
    · have hp : 0 < q := not_le.mp hq
      by_cases hb : jsTrim (orDefault env.TELEGRAM_BOT_TOKEN "") = ""
      · exact ⟨by simp [hq, hb], by simp [hq, hb], fun _ => by simp [hq, hb]⟩
      · by_cases hc2 : jsTrim (orDefault env.TELEGRAM_CHAT_ID "") = ""
        · exact ⟨by simp [hq, hb, hc2], by simp [hq, hb, hc2], fun _ => by simp [hq, hb, hc2]⟩
        · refine ⟨by simp [hq, hb, hc2, JSNumber.isFinitePos, hp], ?_,
            fun hcon => absurd ⟨by simp [JSNumber.isFinitePos, hp], hb, hc2⟩ hcon⟩
          intro cfg hcfg
          simp only [hq, if_false, hb, hc2, if_neg, Except.ok.injEq] at hcfg
          rw [← hcfg]

/-- Witness for C9: a concrete parser and environment that load, and a
blank-credential environment that fails. -/
theorem c9_loadConfig_witness :
    (∃ cfg, loadConfig tnW envW = .ok cfg)
    ∧ ∃ msg, loadConfig tnW { envW with TELEGRAM_BOT_TOKEN := some "  " } = .error msg := by
  refine ⟨(c9_loadConfig tnW envW).1.mpr ⟨by decide, by decide, by decide⟩, ?_⟩
  exact (c9_loadConfig tnW { envW with TELEGRAM_BOT_TOKEN := some "  " }).2.2
    (by decide)

/-- C10: normalization never leaves alertName, severity, status, source,
timestamp or actionText empty — empty inbound strings fall back to the
defaults just like missing ones (given the clock string is non-empty, as an
ISO-8601 rendering always is) — and consequently the message rendered from
any normalized alert carries Severity, Status, Source and Time lines. -/
theorem c10_defaults_nonempty (now : String) (p : KenerPayload)
    (tl : String → Except Unit String) (h : now ≠ "") :
    ((normalize now p).alertName ≠ "" ∧ (normalize now p).severity ≠ ""
     ∧ (normalize now p).status ≠ "" ∧ (normalize now p).source ≠ ""
     ∧ (normalize now p).timestamp ≠ "" ∧ (normalize now p).actionText ≠ "")
    ∧ lineAny "<b>Status:" (messageLines tl (normalize now p)) = true
    ∧ severityLine (normalize now p).severity ∈ messageLines tl (normalize now p)
    ∧ lineAny "<b>Source:" (messageLines tl (normalize now p)) = true
    ∧ lineAny "<b>Time:" (messageLines tl (normalize now p)) = true := by
  have hsrc : (normalize now p).source ≠ "" := orDefault_ne_empty _ _ (by decide)
  have hts : (normalize now p).timestamp ≠ "" := orDefault_ne_empty _ _ h
  refine ⟨⟨orDefault_ne_empty _ _ (by decide), orDefault_ne_empty _ _ (by decide),
    orDefault_ne_empty _ _ (by decide), hsrc, hts, pickAction_text_ne p⟩, ?_, ?_, ?_, ?_⟩
  · exact lineAny_true_of_mem _ _ _ (statusLine_mem tl _) (lsw_statusLine_self _)
  · exact severityLine_mem tl _
  · exact lineAny_true_of_mem _ _ _ (sourceLine_mem tl _ hsrc) (lsw_sourceLine_self _)
  · exact lineAny_true_of_mem _ _ _ (timeLine_mem tl _ hts) (lsw_timeLine_self tl _)

/-- Witness for C10 on the empty inbound event at a concrete clock value. -/
theorem c10_defaults_nonempty_witness :
    (normalize "2025-01-01T00:00:00.000Z" emptyKenerPayload).source ≠ ""
    ∧ lineAny "<b>Time:"
        (messageLines tlFix (normalize "2025-01-01T00:00:00.000Z" emptyKenerPayload))
        = true :=
  ⟨((c10_defaults_nonempty "2025-01-01T00:00:00.000Z" emptyKenerPayload tlFix
      (by decide)).1).2.2.2.1,
   (c10_defaults_nonempty "2025-01-01T00:00:00.000Z" emptyKenerPayload tlFix
      (by decide)).2.2.2.2⟩

end KenerRelay
